import Mathlib

/-!
Verification development for the SagaPay payment-processing platform.

Shallow embedding in Lean 4 of the saga core: payment state machine
(finpay/common/state_machine.py), orchestrator handlers
(finpay/services/orchestrator/service.py), risk decision engine
(finpay/services/risk/service.py), ledger posting engine
(finpay/services/ledger/service.py), provider adapter
(finpay/services/provider_adapter/service.py), transactional outbox helpers
(finpay/common/outbox.py) and the gateway token bucket
(finpay/services/api_gateway/main.py).

The database session of one handler invocation is modelled as explicit state
passing; `db.commit()` at the end of a handler corresponds to returning the
new state, and a raised exception (transaction rollback) is an `Except.error`
result, after which the caller keeps the original state.  Wall-clock values
(latencies), the Kafka bus and the Redis KV store are external inputs and are
passed in as explicit parameters where a handler reads them.
-/

namespace SagaPay

/-- Payment lifecycle states (column `payments.status`). -/
inductive PayState where
  | CREATED
  | RISK_REVIEW
  | APPROVED
  | AUTHORIZED
  | CAPTURED
  | SETTLED
  | FAILED
  | REVERSED
deriving DecidableEq, Repr

/-- `ALLOWED_TRANSITIONS` from finpay/common/state_machine.py. -/
def ALLOWED_TRANSITIONS : PayState → List PayState
  | .CREATED => [.RISK_REVIEW, .APPROVED, .FAILED]
  | .RISK_REVIEW => [.APPROVED, .FAILED]
  | .APPROVED => [.AUTHORIZED, .FAILED]
  | .AUTHORIZED => [.CAPTURED, .FAILED, .REVERSED]
  | .CAPTURED => [.SETTLED, .FAILED, .REVERSED]
  | .SETTLED => []
  | .FAILED => [.REVERSED]
  | .REVERSED => []

/-- `validate_transition` from finpay/common/state_machine.py: raises
`ValueError` when the transition is not in the allowed table. -/
def validate_transition (current new : PayState) : Except String Unit :=
  if new ∈ ALLOWED_TRANSITIONS current then .ok ()
  else .error "Invalid transition"

/-- Row of the orchestrator `payments` table (orchestrator/models.py). -/
structure Payment where
  payment_id : String
  customer_id : String
  amount_cents : Int
  currency : String
  status : PayState
  state_version : Nat
  idempotency_key : String
deriving DecidableEq, Repr

/-- Row of `payment_timeline` (orchestrator/models.py). -/
structure TimelineRow where
  payment_id : String
  from_state : Option PayState
  to_state : PayState
  reason : String
  event_id : Option String
deriving DecidableEq, Repr

/-- Row of `payment_attempts` (orchestrator/models.py). -/
structure AttemptRow where
  payment_id : String
  attempt_number : Int
  result : String
  latency_ms : Int
  error_code : Option String
deriving DecidableEq, Repr

/-- The provider authorize-request envelope, also the shape reused as the
`failed_event` carried inside a DLQ payload. -/
structure ProviderEvent where
  event_id : String
  aggregate_id : String
  trace_id : String
  customer_id : Option String
  currency : Option String
  amount_cents : Option Int
deriving DecidableEq, Repr

/-- Structured outbox payloads: one constructor per event family actually
written by the services (the `payload` dict of the inner `EventEnvelope`). -/
inductive OutPayload where
  | requested (customer_id : String) (amount_cents : Int) (currency : String)
  | authorize_requested (amount_cents : Int) (currency : String) (customer_id : String)
  | captured (amount_cents : Int) (currency : String) (customer_id : String)
  | reversed (reason : String) (source_event_id : String)
  | settled (transaction_id : String) (amount_cents : Int)
  | risk_decision (decision : String) (reason : String) (customer_id : String)
  | authorized (attempt_number : Int) (latency_ms : Int)
  | failed (attempt_number : Int) (latency_ms : Int) (error_code : String)
  | dlq (reason : String) (error_type : String) (retryable : Bool) (source : String)
        (source_event_id : String) (replay : Option (String × ProviderEvent))
deriving DecidableEq, Repr

/-- Row of a service-local `outbox_events` table, as inserted by handlers
(status lifecycle is modelled separately for finpay/common/outbox.py). -/
structure OutboxRow where
  aggregate_id : String
  event_type : String
  topic : String
  trace_id : String
  payload : OutPayload
deriving DecidableEq, Repr

/-- Orchestrator-side database state: payments, timeline, attempts, inbox
(event ids consumed by the constant service name "orchestrator"), outbox and
the in-process `duplicate_events_skipped` counter. -/
structure OrchState where
  payments : List Payment
  timeline : List TimelineRow
  attempts : List AttemptRow
  inbox : List String
  outbox : List OutboxRow
  dup_skipped : Nat
deriving DecidableEq, Repr

/-- Envelope consumed by orchestrator handlers; optional payload fields mirror
`event.payload.get(...)` lookups in the handlers. -/
structure OrchEvent where
  event_id : String
  aggregate_id : String
  trace_id : String
  decision : Option String
  attempt_number : Option Int
  latency_ms : Option Int
  error_code : Option String
deriving DecidableEq, Repr

/-- Model of Python `str.upper()` as a character-wise map. -/
def upper_str (s : String) : String := ⟨s.data.map Char.toUpper⟩

namespace Orch

/-- `db.get(Payment, aggregate_id)`: primary-key lookup. -/
def find_payment (ps : List Payment) (pid : String) : Option Payment :=
  ps.find? (fun q => decide (q.payment_id = pid))

/-- WHERE clause of the conditional UPDATE inside `_transition`:
`payment_id = pid AND status = s AND state_version = v`. -/
def occ_match (pid : String) (s : PayState) (v : Nat) (q : Payment) : Bool :=
  decide (q.payment_id = pid ∧ q.status = s ∧ q.state_version = v)

/-- SET clause applied to each row matched by the conditional UPDATE. -/
def occ_apply (new_status : PayState) (pid : String) (s : PayState) (v : Nat)
    (q : Payment) : Payment :=
  if occ_match pid s v q then
    { q with status := new_status, state_version := v + 1 }
  else q

/-- `OrchestratorService._transition`: validate against the allowed table,
run the optimistic-concurrency conditional update, require rowcount 1, update
the in-memory payment and append one timeline row. -/
def transition (st : OrchState) (p : Payment) (new_status : PayState)
    (reason : String) (event_id : Option String) :
    Except String (OrchState × Payment) := do
  _ ← validate_transition p.status new_status
  let rowcount := st.payments.countP (occ_match p.payment_id p.status p.state_version)
  if rowcount ≠ 1 then
    .error "optimistic concurrency conflict"
  else
    let p' := { p with status := new_status, state_version := p.state_version + 1 }
    .ok ({ st with
            payments := st.payments.map
              (occ_apply new_status p.payment_id p.status p.state_version),
            timeline := st.timeline ++
              [{ payment_id := p.payment_id, from_state := some p.status,
                 to_state := new_status, reason := reason, event_id := event_id }] },
         p')

/-- Payment rows have unique primary keys. -/
def UniqueIds (ps : List Payment) : Prop := (ps.map Payment.payment_id).Nodup

instance (ps : List Payment) : Decidable (UniqueIds ps) := by
  unfold UniqueIds; infer_instance

/-- One step of a transition sequence: target state, reason, event id. -/
structure TransSpec where
  to_state : PayState
  reason : String
  event_id : Option String
deriving DecidableEq, Repr

/-- A sequence of `_transition` calls threading the session state and the
in-memory payment object, as the handlers do. -/
def run_transitions (st : OrchState) (p : Payment) :
    List TransSpec → Except String (OrchState × Payment)
  | [] => .ok (st, p)
  | s :: rest => do
    let (st1, p1) ← transition st p s.to_state s.reason s.event_id
    run_transitions st1 p1 rest

/-- Duplicate-delivery branch: only the `duplicate_events_skipped` counter
moves. -/
def dup_bump (st : OrchState) : OrchState :=
  { st with dup_skipped := st.dup_skipped + 1 }

/-- `OrchestratorService.handle_risk_approved`. -/
def handle_risk_approved (st : OrchState) (ev : OrchEvent) :
    Except String OrchState :=
  if ev.event_id ∈ st.inbox then .ok (dup_bump st)
  else
    match find_payment st.payments ev.aggregate_id with
    | none => .ok { st with inbox := st.inbox ++ [ev.event_id] }
    | some payment => do
      let (st1, p1) ← transition st payment .APPROVED "risk_approved" (some ev.event_id)
      .ok { st1 with
              inbox := st1.inbox ++ [ev.event_id],
              outbox := st1.outbox ++
                [{ aggregate_id := p1.payment_id,
                   event_type := "provider.authorize.requested",
                   topic := "provider.authorize.requested",
                   trace_id := ev.trace_id,
                   payload := .authorize_requested p1.amount_cents p1.currency
                     p1.customer_id }] }

/-- `OrchestratorService.handle_risk_denied`. -/
def handle_risk_denied (st : OrchState) (ev : OrchEvent) :
    Except String OrchState :=
  if ev.event_id ∈ st.inbox then .ok (dup_bump st)
  else
    match find_payment st.payments ev.aggregate_id with
    | none => .ok { st with inbox := st.inbox ++ [ev.event_id] }
    | some payment => do
      let target : PayState :=
        if ev.decision = some "REVIEW" then .RISK_REVIEW else .FAILED
      let reason :=
        if ev.decision = some "REVIEW" then "risk_review_required" else "risk_denied"
      let (st1, _) ← transition st payment target reason (some ev.event_id)
      .ok { st1 with inbox := st1.inbox ++ [ev.event_id] }

/-- `OrchestratorService.handle_authorized`: two back-to-back transitions with
one `event_id`, an AUTHORIZED attempt row, and a `payments.captured` event. -/
def handle_authorized (st : OrchState) (ev : OrchEvent) :
    Except String OrchState :=
  if ev.event_id ∈ st.inbox then .ok (dup_bump st)
  else
    match find_payment st.payments ev.aggregate_id with
    | none => .ok { st with inbox := st.inbox ++ [ev.event_id] }
    | some payment => do
      let (st1, p1) ← transition st payment .AUTHORIZED "provider_authorized"
        (some ev.event_id)
      let (st2, p2) ← transition st1 p1 .CAPTURED "capture_requested"
        (some ev.event_id)
      .ok { st2 with
              attempts := st2.attempts ++
                [{ payment_id := p2.payment_id,
                   attempt_number := ev.attempt_number.getD 1,
                   result := "AUTHORIZED",
                   latency_ms := ev.latency_ms.getD 0,
                   error_code := none }],
              inbox := st2.inbox ++ [ev.event_id],
              outbox := st2.outbox ++
                [{ aggregate_id := p2.payment_id,
                   event_type := "payments.captured",
                   topic := "payments.captured",
                   trace_id := ev.trace_id,
                   payload := .captured p2.amount_cents p2.currency
                     p2.customer_id }] }

/-- `OrchestratorService.handle_failed`: move to FAILED unless already there,
record a FAILED attempt, and compensate (REVERSED + `payments.reversed`)
exactly for `PROVIDER_TIMEOUT`. -/
def handle_failed (st : OrchState) (ev : OrchEvent) : Except String OrchState :=
  if ev.event_id ∈ st.inbox then .ok (dup_bump st)
  else
    match find_payment st.payments ev.aggregate_id with
    | none => .ok { st with inbox := st.inbox ++ [ev.event_id] }
    | some payment => do
      let (st1, p1) ←
        if payment.status ≠ .FAILED then
          transition st payment .FAILED
            ("provider_failed:" ++ ev.error_code.getD "UNKNOWN") (some ev.event_id)
        else .ok (st, payment)
      let st2 := { st1 with
        attempts := st1.attempts ++
          [{ payment_id := p1.payment_id,
             attempt_number := ev.attempt_number.getD 1,
             result := "FAILED",
             latency_ms := ev.latency_ms.getD 0,
             error_code := some (ev.error_code.getD "UNKNOWN") }] }
      let st3 ←
        if ev.error_code = some "PROVIDER_TIMEOUT" then do
          let (sta, pa) ← transition st2 p1 .REVERSED
            "provider_timeout_compensation" (some ev.event_id)
          .ok { sta with
                  outbox := sta.outbox ++
                    [{ aggregate_id := pa.payment_id,
                       event_type := "payments.reversed",
                       topic := "payments.reversed",
                       trace_id := ev.trace_id,
                       payload := .reversed "provider_timeout_compensation"
                         ev.event_id }] }
        else .ok st2
      .ok { st3 with inbox := st3.inbox ++ [ev.event_id] }

/-- `OrchestratorService.handle_settled`. -/
def handle_settled (st : OrchState) (ev : OrchEvent) : Except String OrchState :=
  if ev.event_id ∈ st.inbox then .ok (dup_bump st)
  else
    match find_payment st.payments ev.aggregate_id with
    | none => .ok { st with inbox := st.inbox ++ [ev.event_id] }
    | some payment => do
      let (st1, _) ← transition st payment .SETTLED "ledger_settled"
        (some ev.event_id)
      .ok { st1 with inbox := st1.inbox ++ [ev.event_id] }

/-- Body of `POST /internal/payments` as validated by the orchestrator. -/
structure PaymentReq where
  customer_id : String
  amount_cents : Int
  currency : String
  idempotency_key : String
deriving DecidableEq, Repr

/-- The `SELECT ... WHERE idempotency_key = :key` lookup in `create_payment`. -/
def find_by_key (ps : List Payment) (key : String) : Option Payment :=
  ps.find? (fun q => decide (q.idempotency_key = key))

/-- `OrchestratorService.create_payment`: return the existing payment on an
idempotency-key hit, otherwise insert the payment, its initial CREATED
timeline row and the `payments.requested` outbox event.  `fresh_id` stands for
the generated UUID primary key. -/
def create_payment (st : OrchState) (req : PaymentReq) (fresh_id : String)
    (trace_id : String) : OrchState × Payment :=
  match find_by_key st.payments req.idempotency_key with
  | some existing => (st, existing)
  | none =>
    let p : Payment :=
      { payment_id := fresh_id, customer_id := req.customer_id,
        amount_cents := req.amount_cents, currency := upper_str req.currency,
        status := .CREATED, state_version := 0,
        idempotency_key := req.idempotency_key }
    ({ st with
        payments := st.payments ++ [p],
        timeline := st.timeline ++
          [{ payment_id := fresh_id, from_state := none, to_state := .CREATED,
             reason := "payment_created", event_id := none }],
        outbox := st.outbox ++
          [{ aggregate_id := fresh_id,
             event_type := "payments.requested",
             topic := "payments.requested",
             trace_id := trace_id,
             payload := .requested req.customer_id req.amount_cents
               (upper_str req.currency) }] },
     p)

end Orch

/-- Contiguous, table-respecting timeline segment from `s` to `t`: each row's
`from_state` is the state reached so far and each `(from, to)` pair is an edge
of `ALLOWED_TRANSITIONS`. -/
def timeline_chain (s : PayState) : List TimelineRow → PayState → Prop
  | [], t => t = s
  | r :: rs, t =>
    r.from_state = some s ∧ r.to_state ∈ ALLOWED_TRANSITIONS s ∧
      timeline_chain r.to_state rs t

/-- Direction of a ledger entry leg. -/
inductive Dir where
  | DEBIT
  | CREDIT
deriving DecidableEq, Repr

/-- Row of `ledger_entries` (ledger/models.py). -/
structure LedgerEntry where
  transaction_id : String
  account_id : String
  direction : Dir
  amount_cents : Int
deriving DecidableEq, Repr

/-- Ledger-side database state: accounts `(account_id, balance_cents)`,
entries, inbox event ids, outbox, duplicate counter. -/
structure LedgerState where
  accounts : List (String × Int)
  entries : List LedgerEntry
  inbox : List String
  outbox : List OutboxRow
  dup_skipped : Nat
deriving DecidableEq, Repr

/-- `payments.captured` envelope consumed by the ledger. -/
structure CapturedEvent where
  event_id : String
  aggregate_id : String
  trace_id : String
  amount_cents : Int
deriving DecidableEq, Repr

namespace Ledger

/-- `db.get(Account, account_id)`, balance projection: first row whose
primary key matches. -/
def acc_lookup : List (String × Int) → String → Option Int
  | [], _ => none
  | ab :: abs, account_id =>
    if ab.1 = account_id then some ab.2 else acc_lookup abs account_id

/-- Write-back of a mutated account balance. -/
def acc_set (accs : List (String × Int)) (account_id : String) (bal : Int) :
    List (String × Int) :=
  accs.map (fun ab => if ab.1 = account_id then (ab.1, bal) else ab)

/-- `LedgerService._post_entry`: insert one ledger row and move the account
balance (DEBIT decreases, CREDIT increases); a missing account raises. -/
def post_entry (st : LedgerState) (tx_id account_id : String) (direction : Dir)
    (amount : Int) : Except String LedgerState :=
  match acc_lookup st.accounts account_id with
  | none => .error "account missing"
  | some bal =>
    let bal' := if direction = .DEBIT then bal - amount else bal + amount
    .ok { st with
            entries := st.entries ++
              [{ transaction_id := tx_id, account_id := account_id,
                 direction := direction, amount_cents := amount }],
            accounts := acc_set st.accounts account_id bal' }

/-- Sum of one direction's `amount_cents` over the re-read rows of one
transaction, exactly as `handle_captured` computes it. -/
def tx_dir_sum (entries : List LedgerEntry) (tx : String) (d : Dir) : Int :=
  (((entries.filter (fun e => decide (e.transaction_id = tx))).filter
      (fun e => decide (e.direction = d))).map LedgerEntry.amount_cents).sum

/-- Duplicate-delivery branch of the ledger consumer. -/
def dup_bump (st : LedgerState) : LedgerState :=
  { st with dup_skipped := st.dup_skipped + 1 }

/-- `LedgerService.handle_captured`: post the two settlement legs, verify the
re-read transaction balances, mark the inbox and emit `payments.settled`. -/
def handle_captured (st : LedgerState) (ev : CapturedEvent) :
    Except String LedgerState :=
  if ev.event_id ∈ st.inbox then .ok (dup_bump st)
  else do
    let amount := ev.amount_cents
    let tx_id := "settlement:" ++ ev.aggregate_id
    let st1 ← post_entry st tx_id "customer_cash" .DEBIT amount
    let st2 ← post_entry st1 tx_id "merchant_receivable" .CREDIT amount
    let debits := tx_dir_sum st2.entries tx_id .DEBIT
    let credits := tx_dir_sum st2.entries tx_id .CREDIT
    if debits ≠ credits then .error "ledger imbalance detected"
    else
      .ok { st2 with
              inbox := st2.inbox ++ [ev.event_id],
              outbox := st2.outbox ++
                [{ aggregate_id := ev.aggregate_id,
                   event_type := "payments.settled",
                   topic := "payments.settled", trace_id := ev.trace_id,
                   payload := .settled tx_id amount }] }

end Ledger

/-- Row of the risk `risk_reviews` table (subset used by the handler). -/
structure RiskReviewRow where
  payment_id : String
  customer_id : String
  amount_cents : Int
  reason : String
  status : String
deriving DecidableEq, Repr

/-- Risk-side database state. -/
structure RiskState where
  inbox : List String
  reviews : List RiskReviewRow
  outbox : List OutboxRow
  dup_skipped : Nat
deriving DecidableEq, Repr

/-- `payments.requested` envelope consumed by risk. -/
structure RiskEvent where
  event_id : String
  aggregate_id : String
  trace_id : String
  customer_id : String
  amount_cents : Int
deriving DecidableEq, Repr

/-- Risk thresholds from `CommonSettings` (config.py). -/
structure RiskConfig where
  risk_deny_frequency_threshold : Int
  risk_review_amount_cents : Int
  risk_velocity_per_hour : Int
deriving DecidableEq, Repr

/-- Defaults from config.py: 50 / 100000 / 20. -/
def default_risk_config : RiskConfig :=
  { risk_deny_frequency_threshold := 50,
    risk_review_amount_cents := 100000,
    risk_velocity_per_hour := 20 }

namespace Risk

/-- `RiskService._rule_decision` after the Redis reads: the velocity counter
(post-INCR) and the failed-attempts counter are passed in as the values the
KV store returned. -/
def rule_decision (cfg : RiskConfig) (current_hour_count failed_attempts
    amount_cents : Int) : String × String :=
  if current_hour_count > cfg.risk_deny_frequency_threshold then
    ("DENY", "high_frequency")
  else if amount_cents > cfg.risk_review_amount_cents then
    ("REVIEW", "high_amount")
  else if failed_attempts ≥ 3 then
    ("REVIEW", "multiple_failed_attempts")
  else if current_hour_count > cfg.risk_velocity_per_hour then
    ("REVIEW", "velocity_threshold")
  else
    ("APPROVE", "rule_passed")

/-- Duplicate-delivery branch of the risk consumer. -/
def dup_bump (st : RiskState) : RiskState :=
  { st with dup_skipped := st.dup_skipped + 1 }

/-- `RiskService.handle_payment_requested`: decide, optionally insert a
PENDING review, enqueue `risk.approved`/`risk.denied`, mark inbox. -/
def handle_payment_requested (cfg : RiskConfig) (st : RiskState)
    (ev : RiskEvent) (current_hour_count failed_attempts : Int) : RiskState :=
  if ev.event_id ∈ st.inbox then dup_bump st
  else
    let dr := rule_decision cfg current_hour_count failed_attempts ev.amount_cents
    let top := if dr.1 = "APPROVE" then "risk.approved" else "risk.denied"
    let st1 :=
      if dr.1 = "REVIEW" then
        if st.reviews.find? (fun r => decide (r.payment_id = ev.aggregate_id))
            = none then
          { st with
              reviews := st.reviews ++
                [{ payment_id := ev.aggregate_id, customer_id := ev.customer_id,
                   amount_cents := ev.amount_cents, reason := dr.2,
                   status := "PENDING" }] }
        else st
      else st
    { st1 with
        outbox := st1.outbox ++
          [{ aggregate_id := ev.aggregate_id, event_type := top, topic := top,
             trace_id := ev.trace_id,
             payload := .risk_decision dr.1 dr.2 ev.customer_id }],
        inbox := st1.inbox ++ [ev.event_id] }

end Risk

/-- Row of the provider `provider_attempts` table. -/
structure ProviderAttemptRow where
  payment_id : String
  attempt_number : Nat
  result : String
  latency_ms : Int
  error_code : Option String
deriving DecidableEq, Repr

/-- Provider-adapter state; `sleeps` records the backoff waits performed. -/
structure ProvState where
  inbox : List String
  attempts : List ProviderAttemptRow
  outbox : List OutboxRow
  sleeps : List Nat
  dup_skipped : Nat
deriving DecidableEq, Repr

/-- Simulated provider outcome of one attempt. -/
inductive Outcome where
  | SUCCESS
  | TIMEOUT
  | DECLINE
deriving DecidableEq, Repr

/-- Model of Python `str.lower()` as a character-wise map. -/
def lower_str (s : String) : String := ⟨s.data.map Char.toLower⟩

/-- Model of Python `str.startswith(...)` on the character lists. -/
def starts_with (s pfx : String) : Bool := pfx.data.isPrefixOf s.data

namespace Provider

/-- Duplicate-delivery branch of the provider consumer. -/
def dup_bump (st : ProvState) : ProvState :=
  { st with dup_skipped := st.dup_skipped + 1 }

/-- `ProviderAdapterService._enqueue_dlq`: `replay_topic`/`failed_event` are
attached only when a replay topic is given. -/
def enqueue_dlq (st : ProvState) (source_event : ProviderEvent)
    (reason error_type : String) (retryable : Bool)
    (replay : Option String) : ProvState :=
  { st with
      outbox := st.outbox ++
        [{ aggregate_id := source_event.aggregate_id,
           event_type := "payments.dlq", topic := "payments.dlq",
           trace_id := source_event.trace_id,
           payload := .dlq reason error_type retryable "provider-adapter"
             source_event.event_id
             (replay.map (fun t => (t, source_event))) }] }

/-- `ProviderAdapterService._validate_authorize_payload`. -/
def validate_authorize_payload (ev : ProviderEvent) :
    Except String (String × Int × String) :=
  match ev.customer_id with
  | none => .error "invalid customer_id"
  | some c =>
    if c = "" then .error "invalid customer_id"
    else
      match ev.currency with
      | none => .error "invalid currency"
      | some cur =>
        if cur.length ≠ 3 then .error "invalid currency"
        else
          match ev.amount_cents with
          | none => .error "invalid amount_cents"
          | some a =>
            if a ≤ 0 then .error "invalid amount_cents"
            else .ok (c, a, cur)

/-- Outcome selection per attempt: the force-timeout / force-decline test
hooks on a lowercased `customer_id` win over the random draw `rand`. -/
def determine_outcome (customer_id : String) (rand : Nat → Outcome)
    (attempt : Nat) : Outcome :=
  if starts_with (lower_str customer_id) "force-timeout" then .TIMEOUT
  else if starts_with (lower_str customer_id) "force-decline" then .DECLINE
  else rand attempt

/-- The attempt loop of `handle_authorize_request` (3 attempts, exponential
backoff 2^(attempt−1) seconds on TIMEOUT, terminal `payments.failed` +
RETRY_EXHAUSTED DLQ on exhaustion).  `lat` supplies the measured latency of
each attempt. -/
def attempt_loop (ev : ProviderEvent) (customer_id : String)
    (rand : Nat → Outcome) (lat : Nat → Int) :
    Nat → Nat → String → ProvState → ProvState
  | 0, _, last_error, st =>
    let st1 := { st with
      outbox := st.outbox ++
        [{ aggregate_id := ev.aggregate_id, event_type := "payments.failed",
           topic := "payments.failed", trace_id := ev.trace_id,
           payload := .failed 3 0 last_error }] }
    enqueue_dlq st1 ev last_error "RETRY_EXHAUSTED" true
      (some "provider.authorize.requested")
  | fuel + 1, attempt, _, st =>
    match determine_outcome customer_id rand attempt with
    | .SUCCESS =>
      { st with
          attempts := st.attempts ++
            [{ payment_id := ev.aggregate_id, attempt_number := attempt,
               result := "AUTHORIZED", latency_ms := lat attempt,
               error_code := none }],
          outbox := st.outbox ++
            [{ aggregate_id := ev.aggregate_id,
               event_type := "payments.authorized",
               topic := "payments.authorized", trace_id := ev.trace_id,
               payload := .authorized attempt (lat attempt) }] }
    | .DECLINE =>
      { st with
          attempts := st.attempts ++
            [{ payment_id := ev.aggregate_id, attempt_number := attempt,
               result := "FAILED", latency_ms := lat attempt,
               error_code := some "PROVIDER_DECLINE" }],
          outbox := st.outbox ++
            [{ aggregate_id := ev.aggregate_id,
               event_type := "payments.failed", topic := "payments.failed",
               trace_id := ev.trace_id,
               payload := .failed attempt (lat attempt) "PROVIDER_DECLINE" }] }
    | .TIMEOUT =>
      attempt_loop ev customer_id rand lat fuel (attempt + 1) "PROVIDER_TIMEOUT"
        { st with sleeps := st.sleeps ++ [2 ^ (attempt - 1)] }

/-- `ProviderAdapterService.handle_authorize_request`: inbox is marked and
committed first, invalid payloads go to a NON_RETRYABLE DLQ, then up to three
provider attempts run. -/
def handle_authorize_request (st : ProvState) (ev : ProviderEvent)
    (rand : Nat → Outcome) (lat : Nat → Int) : ProvState :=
  if ev.event_id ∈ st.inbox then dup_bump st
  else
    let st0 := { st with inbox := st.inbox ++ [ev.event_id] }
    match validate_authorize_payload ev with
    | .error msg => enqueue_dlq st0 ev msg "NON_RETRYABLE" false none
    | .ok (customer_id, _, _) =>
      attempt_loop ev customer_id rand lat 3 1 "UNKNOWN" st0

end Provider

namespace Orch

/-- A handler commit either leaves the inbox unchanged (duplicate skip) or
appends the event id, and only when it was absent. -/
def InboxDelta (st st' : OrchState) (event_id : String) : Prop :=
  st'.inbox = st.inbox ∨
    (event_id ∉ st.inbox ∧ st'.inbox = st.inbox ++ [event_id])

end Orch

/-- Per-customer token bucket entry stored in the shared KV store
(`tokens`, `updated_at`), modelled over exact rationals. -/
structure BucketEntry where
  tokens : ℚ
  updated_at : ℚ
deriving DecidableEq, Repr

namespace Gateway

/-- `enforce_token_bucket` from api_gateway/main.py: capacity is the full
`rate_limit_per_minute`, refill rate is `capacity / 60` per second; the
request is rejected (HTTP 429, first component `false`) when the refilled
tokens are below 1, otherwise one token is consumed.  Returns the decision
and the entry written back to the store. -/
def enforce_token_bucket (rate_limit_per_minute : ℚ)
    (stored : Option BucketEntry) (now : ℚ) : Bool × BucketEntry :=
  let capacity := rate_limit_per_minute
  let refill_per_sec := capacity / 60
  let tokens0 := match stored with | some e => e.tokens | none => capacity
  let updated_at := match stored with | some e => e.updated_at | none => now
  let elapsed := max 0 (now - updated_at)
  let tokens := min capacity (tokens0 + elapsed * refill_per_sec)
  if tokens < 1 then (false, { tokens := tokens, updated_at := now })
  else (true, { tokens := tokens - 1, updated_at := now })

/-- Modelled from the spec's words for comparison: a bucket whose capacity
AND refill rate are both `rate_limit_per_minute/60` (tokens, per second). -/
def claim_token_bucket (rate_limit_per_minute : ℚ)
    (stored : Option BucketEntry) (now : ℚ) : Bool × BucketEntry :=
  let capacity := rate_limit_per_minute / 60
  let refill_per_sec := rate_limit_per_minute / 60
  let tokens0 := match stored with | some e => e.tokens | none => capacity
  let updated_at := match stored with | some e => e.updated_at | none => now
  let elapsed := max 0 (now - updated_at)
  let tokens := min capacity (tokens0 + elapsed * refill_per_sec)
  if tokens < 1 then (false, { tokens := tokens, updated_at := now })
  else (true, { tokens := tokens - 1, updated_at := now })

/-- Tokens available after the refill step, as the code computes them. -/
def available_tokens (rate_limit_per_minute : ℚ)
    (stored : Option BucketEntry) (now : ℚ) : ℚ :=
  let capacity := rate_limit_per_minute
  let tokens0 := match stored with | some e => e.tokens | none => capacity
  let updated_at := match stored with | some e => e.updated_at | none => now
  min capacity (tokens0 + max 0 (now - updated_at) * (capacity / 60))

end Gateway

/-- Status column of an outbox row. -/
inductive OutboxStatus where
  | PENDING
  | PROCESSING
  | SENT
deriving DecidableEq, Repr

/-- Outbox row as seen by the publisher helpers in finpay/common/outbox.py. -/
structure OutboxRec where
  id : String
  status : OutboxStatus
  sent_at : Option ℚ
  topic : String
deriving DecidableEq, Repr

namespace Outbox

/-- Effect of `mark_outbox_sent`'s UPDATE on a single row: the SET applies
only where `id = event_id AND status = 'PROCESSING'`. -/
def mark_row (event_id : String) (now : ℚ) (r : OutboxRec) : OutboxRec :=
  if r.id = event_id ∧ r.status = .PROCESSING then
    { r with status := .SENT, sent_at := some now }
  else r

/-- `mark_outbox_sent` over the whole table. -/
def mark_outbox_sent (rows : List OutboxRec) (event_id : String) (now : ℚ) :
    List OutboxRec :=
  rows.map (mark_row event_id now)

/-- Effect of `requeue_outbox_event`'s UPDATE on a single row. -/
def requeue_row (event_id : String) (r : OutboxRec) : OutboxRec :=
  if r.id = event_id ∧ r.status = .PROCESSING then
    { r with status := .PENDING, sent_at := none }
  else r

/-- `requeue_outbox_event` over the whole table. -/
def requeue_outbox_event (rows : List OutboxRec) (event_id : String) :
    List OutboxRec :=
  rows.map (requeue_row event_id)

end Outbox

/-- Concrete CREATED payment used to evaluate the theorems. -/
def wPayment : Payment :=
  { payment_id := "p1", customer_id := "c1", amount_cents := 500,
    currency := "USD", status := .CREATED, state_version := 0,
    idempotency_key := "k1" }

/-- Orchestrator store holding just `wPayment`. -/
def wOrchState : OrchState :=
  { payments := [wPayment], timeline := [], attempts := [], inbox := [],
    outbox := [], dup_skipped := 0 }

/-- Same payment in status APPROVED. -/
def wPaymentApproved : Payment :=
  { payment_id := "p1", customer_id := "c1", amount_cents := 500,
    currency := "USD", status := .APPROVED, state_version := 0,
    idempotency_key := "k1" }

/-- Orchestrator store holding just `wPaymentApproved`. -/
def wOrchStateApproved : OrchState :=
  { payments := [wPaymentApproved], timeline := [], attempts := [], inbox := [],
    outbox := [], dup_skipped := 0 }

/-- Store and payment after one CREATED→APPROVED transition on `wOrchState`. -/
def wOrchStateAfter : OrchState :=
  { payments := [{ payment_id := "p1", customer_id := "c1",
                   amount_cents := 500, currency := "USD",
                   status := .APPROVED, state_version := 1,
                   idempotency_key := "k1" }],
    timeline := [{ payment_id := "p1", from_state := some .CREATED,
                   to_state := .APPROVED, reason := "risk_approved",
                   event_id := none }],
    attempts := [], inbox := [], outbox := [], dup_skipped := 0 }

/-- The payment object after that transition. -/
def wPaymentAfter : Payment :=
  { payment_id := "p1", customer_id := "c1", amount_cents := 500,
    currency := "USD", status := .APPROVED, state_version := 1,
    idempotency_key := "k1" }

/-- Same payment in the terminal status SETTLED. -/
def wPaymentSettled : Payment :=
  { payment_id := "p1", customer_id := "c1", amount_cents := 500,
    currency := "USD", status := .SETTLED, state_version := 0,
    idempotency_key := "k1" }

/-- Orchestrator store holding just `wPaymentSettled`. -/
def wOrchStateSettled : OrchState :=
  { payments := [wPaymentSettled], timeline := [], attempts := [], inbox := [],
    outbox := [], dup_skipped := 0 }

/-- A `payments.failed` envelope with a PROVIDER_TIMEOUT error code. -/
def wFailedEvent : OrchEvent :=
  { event_id := "e1", aggregate_id := "p1", trace_id := "t1", decision := none,
    attempt_number := some 1, latency_ms := some 5,
    error_code := some "PROVIDER_TIMEOUT" }

/-- A `payments.authorized` envelope. -/
def wAuthEvent : OrchEvent :=
  { event_id := "e1", aggregate_id := "p1", trace_id := "t1", decision := none,
    attempt_number := some 1, latency_ms := some 7, error_code := none }

/-- A force-timeout authorize request. -/
def wProvEvent : ProviderEvent :=
  { event_id := "e1", aggregate_id := "p1", trace_id := "t1",
    customer_id := some "force-timeout-A", currency := some "USD",
    amount_cents := some 500 }

/-- Empty provider-adapter store. -/
def wProvState : ProvState :=
  { inbox := [], attempts := [], outbox := [], sleeps := [], dup_skipped := 0 }

/-- A deterministic outcome oracle (never consulted under force-timeout). -/
def wRand : Nat → Outcome := fun _ => .SUCCESS

/-- A zero-latency clock oracle. -/
def wLat : Nat → Int := fun _ => 0

/-- Ledger store with `e1` already consumed. -/
def wLedgerSeen : LedgerState :=
  { accounts := [("customer_cash", 0), ("merchant_receivable", 0)],
    entries := [], inbox := ["e1"], outbox := [], dup_skipped := 0 }

/-- A `payments.captured` envelope with event id `e1`. -/
def wCapturedEvent : CapturedEvent :=
  { event_id := "e1", aggregate_id := "p1", trace_id := "t1",
    amount_cents := 500 }

/-- Payment-creation request with key `key-1`. -/
def wReq1 : Orch.PaymentReq :=
  { customer_id := "c1", amount_cents := 500, currency := "usd",
    idempotency_key := "key-1" }

/-- Second request reusing `key-1` with different fields. -/
def wReq2 : Orch.PaymentReq :=
  { customer_id := "c2", amount_cents := 700, currency := "eur",
    idempotency_key := "key-1" }

/-- Empty orchestrator store. -/
def wEmptyOrch : OrchState :=
  { payments := [], timeline := [], attempts := [], inbox := [], outbox := [],
    dup_skipped := 0 }

/-- Payment created by `wReq1` under fresh id `pX`. -/
def wCreated : Payment :=
  { payment_id := "pX", customer_id := "c1", amount_cents := 500,
    currency := "USD", status := .CREATED, state_version := 0,
    idempotency_key := "key-1" }

/-- Store after the first `create_payment` call. -/
def wStAfterCreate : OrchState :=
  { payments := [wCreated],
    timeline := [{ payment_id := "pX", from_state := none,
                   to_state := .CREATED, reason := "payment_created",
                   event_id := none }],
    attempts := [], inbox := [],
    outbox := [{ aggregate_id := "pX", event_type := "payments.requested",
                 topic := "payments.requested", trace_id := "t1",
                 payload := .requested "c1" 500 "USD" }],
    dup_skipped := 0 }

/-- A PENDING outbox row. -/
def wOutboxRec : OutboxRec :=
  { id := "a", status := .PENDING, sent_at := none,
    topic := "payments.requested" }

namespace Orch

lemma occ_apply_payment_id (ns : PayState) (pid : String) (s : PayState) (v : Nat)
    (q : Payment) : (occ_apply ns pid s v q).payment_id = q.payment_id := by
  unfold occ_apply
  split <;> rfl

lemma UniqueIds_map_occ (ps : List Payment) (ns : PayState) (pid : String)
    (s : PayState) (v : Nat) (hU : UniqueIds ps) :
    UniqueIds (ps.map (occ_apply ns pid s v)) := by
  unfold UniqueIds at *
  rw [List.map_map]
  have hfun : Payment.payment_id ∘ occ_apply ns pid s v = Payment.payment_id :=
    funext fun q => occ_apply_payment_id ns pid s v q
  rw [hfun]
  exact hU

lemma countP_occ_of_find {ps : List Payment} {pid : String} {p : Payment}
    (hU : UniqueIds ps) (hf : find_payment ps pid = some p) :
    ps.countP (occ_match pid p.status p.state_version) = 1 := by
  induction ps with
  | nil => simp [find_payment] at hf
  | cons q qs ih =>
    unfold UniqueIds at hU
    rw [List.map_cons, List.nodup_cons] at hU
    obtain ⟨hq_not, hnd⟩ := hU
    by_cases hq : q.payment_id = pid
    · have hfind : find_payment (q :: qs) pid = some q := by
        simp [find_payment, List.find?_cons_of_pos, hq]
      rw [hfind] at hf
      have hqp : q = p := by injection hf
      subst hqp
      rw [List.countP_cons]
      have hhead : occ_match pid q.status q.state_version q = true := by
        simp [occ_match, hq]
      have hzero : qs.countP (occ_match pid q.status q.state_version) = 0 := by
        rw [List.countP_eq_zero]
        intro a ha hmatch
        simp only [occ_match, decide_eq_true_eq] at hmatch
        have hmem : a.payment_id ∈ List.map Payment.payment_id qs :=
          List.mem_map_of_mem Payment.payment_id ha
        rw [hmatch.1, ← hq] at hmem
        exact hq_not hmem
      simp [hzero, hhead]
    · have hfind : find_payment (q :: qs) pid = find_payment qs pid := by
        simp [find_payment, List.find?_cons_of_neg, hq]
      rw [hfind] at hf
      rw [List.countP_cons]
      have hhead : occ_match pid p.status p.state_version q = false := by
        simp [occ_match, hq]
      simp [hhead, ih hnd hf]

lemma find_payment_map_occ (ps : List Payment) (pid : String) (p : Payment)
    (ns : PayState) (hU : UniqueIds ps) (hf : find_payment ps pid = some p) :
    find_payment (ps.map (occ_apply ns pid p.status p.state_version)) pid =
      some { p with status := ns, state_version := p.state_version + 1 } := by
  induction ps with
  | nil => simp [find_payment] at hf
  | cons q qs ih =>
    unfold UniqueIds at hU
    rw [List.map_cons, List.nodup_cons] at hU
    obtain ⟨hq_not, hnd⟩ := hU
    by_cases hq : q.payment_id = pid
    · have hfind : find_payment (q :: qs) pid = some q := by
        simp [find_payment, List.find?_cons_of_pos, hq]
      rw [hfind] at hf
      have hqp : q = p := by injection hf
      subst hqp
      have hmatch : occ_match pid q.status q.state_version q = true := by
        simp [occ_match, hq]
      simp [find_payment, List.map_cons, occ_apply, hmatch,
        List.find?_cons_of_pos, hq]
    · have hfind : find_payment (q :: qs) pid = find_payment qs pid := by
        simp [find_payment, List.find?_cons_of_neg, hq]
      rw [hfind] at hf
      have hmatch : occ_match pid p.status p.state_version q = false := by
        simp [occ_match, hq]
      have hid : (occ_apply ns pid p.status p.state_version q).payment_id ≠ pid := by
        rw [occ_apply_payment_id]; exact hq
      simpa [find_payment, List.map_cons, List.find?_cons_of_neg, occ_apply, hmatch, hq]
        using ih hnd hf

/-- Behaviour of `_transition` on a valid edge: the conditional update hits
exactly the looked-up row, the version bumps by one and one timeline row with
`from_state` = prior status is appended. -/
lemma transition_ok (st : OrchState) (p : Payment) (ns : PayState)
    (r : String) (e : Option String)
    (hU : UniqueIds st.payments)
    (hf : find_payment st.payments p.payment_id = some p)
    (hv : ns ∈ ALLOWED_TRANSITIONS p.status) :
    transition st p ns r e =
      .ok ({ st with
              payments := st.payments.map
                (occ_apply ns p.payment_id p.status p.state_version),
              timeline := st.timeline ++
                [{ payment_id := p.payment_id, from_state := some p.status,
                   to_state := ns, reason := r, event_id := e }] },
           { p with status := ns, state_version := p.state_version + 1 }) := by
  have hcount := countP_occ_of_find hU hf
  simp [transition, validate_transition, hv, hcount, bind, Except.bind]

/-- `_transition` reads and writes only `payments` and `timeline`; setting the
`attempts` column first commutes with it. -/
lemma transition_set_attempts (st : OrchState) (p : Payment) (ns : PayState)
    (r : String) (e : Option String) (A : List AttemptRow) :
    transition { st with attempts := A } p ns r e =
      (transition st p ns r e).map
        (fun sq => ({ sq.1 with attempts := A }, sq.2)) := by
  unfold transition
  by_cases hv : ns ∈ ALLOWED_TRANSITIONS p.status
  · simp only [validate_transition, hv, if_pos, bind, Except.bind, Except.map]
    split <;> rfl
  · simp only [validate_transition, hv, if_neg, not_false_iff, bind,
      Except.bind, Except.map]

/-- `_transition` on an edge outside the allowed table raises. -/
lemma transition_err {st : OrchState} {p : Payment} {ns : PayState}
    (r : String) (e : Option String)
    (hv : ns ∉ ALLOWED_TRANSITIONS p.status) :
    transition st p ns r e = .error "Invalid transition" := by
  simp [transition, validate_transition, hv, bind, Except.bind]

/-- `payment_id` of a looked-up row equals the key it was looked up by. -/
lemma find_payment_id {ps : List Payment} {pid : String} {p : Payment}
    (hf : find_payment ps pid = some p) : p.payment_id = pid := by
  have := List.find?_some hf
  simpa using this

end Orch

lemma run_transitions_spec {specs : List Orch.TransSpec} :
    ∀ {st : OrchState} {p : Payment} {st' : OrchState} {p' : Payment},
    Orch.UniqueIds st.payments →
    Orch.find_payment st.payments p.payment_id = some p →
    Orch.run_transitions st p specs = .ok (st', p') →
    ∃ rows : List TimelineRow,
      st'.timeline = st.timeline ++ rows ∧
      rows.length = specs.length ∧
      timeline_chain p.status rows p'.status ∧
      p'.state_version = p.state_version + specs.length := by
  induction specs with
  | nil =>
    intro st p st' p' _ _ h
    simp only [Orch.run_transitions] at h
    obtain ⟨rfl, rfl⟩ : st = st' ∧ p = p' := by
      constructor <;> [skip; skip] <;> injection h with h' <;>
        first
        | exact congrArg Prod.fst h'
        | exact congrArg Prod.snd h'
    exact ⟨[], by simp [timeline_chain]⟩
  | cons s rest ih =>
    intro st p st' p' hU hf h
    by_cases hv : s.to_state ∈ ALLOWED_TRANSITIONS p.status
    · rw [Orch.run_transitions, Orch.transition_ok _ _ _ s.reason s.event_id hU hf hv] at h
      simp only [bind, Except.bind] at h
      set st1 : OrchState :=
        { st with
            payments := st.payments.map
              (Orch.occ_apply s.to_state p.payment_id p.status p.state_version),
            timeline := st.timeline ++
              [{ payment_id := p.payment_id, from_state := some p.status,
                 to_state := s.to_state, reason := s.reason, event_id := s.event_id }] }
        with hst1
      set p1 : Payment :=
        { p with status := s.to_state, state_version := p.state_version + 1 } with hp1
      have hU1 : Orch.UniqueIds st1.payments :=
        Orch.UniqueIds_map_occ _ s.to_state p.payment_id p.status p.state_version hU
      have hf1 : Orch.find_payment st1.payments p1.payment_id = some p1 := by
        have := Orch.find_payment_map_occ _ _ _ s.to_state hU hf
        simpa [hst1, hp1] using this
      obtain ⟨rows1, htl, hlen, hchain, hver⟩ := ih hU1 hf1 h
      refine ⟨{ payment_id := p.payment_id, from_state := some p.status,
                to_state := s.to_state, reason := s.reason,
                event_id := s.event_id } :: rows1, ?_, ?_, ?_, ?_⟩
      · rw [htl, hst1]
        simp
      · simp [hlen]
      · exact ⟨rfl, hv, by simpa [hp1] using hchain⟩
      · simp only [hver, hp1, List.length_cons]
        omega
    · rw [Orch.run_transitions, Orch.transition_err s.reason s.event_id hv] at h
      simp [bind, Except.bind] at h

/-- **C1.** Every successful `_transition` sequence follows the allowed table
of §4.4 (terminal states SETTLED/REVERSED admit no further step), each step
increments `state_version` by exactly one and appends exactly one timeline row
whose `from_state` is the prior status, so the final version equals the number
of successful transitions and the timeline segment is a contiguous chain. -/
theorem C1_state_machine_timeline
    (st : OrchState) (p : Payment) (specs : List Orch.TransSpec)
    (st' : OrchState) (p' : Payment)
    (hU : Orch.UniqueIds st.payments)
    (hf : Orch.find_payment st.payments p.payment_id = some p)
    (h : Orch.run_transitions st p specs = .ok (st', p')) :
    st'.timeline = st.timeline ++ st'.timeline.drop st.timeline.length ∧
    (st'.timeline.drop st.timeline.length).length = specs.length ∧
    timeline_chain p.status (st'.timeline.drop st.timeline.length) p'.status ∧
    p'.state_version = p.state_version + specs.length ∧
    ((p.status = .SETTLED ∨ p.status = .REVERSED) → specs = []) := by
  obtain ⟨rows, htl, hlen, hchain, hver⟩ := run_transitions_spec hU hf h
  have hdrop : st'.timeline.drop st.timeline.length = rows := by
    rw [htl]
    exact List.drop_left st.timeline rows
  refine ⟨by rw [hdrop]; exact htl, by rw [hdrop]; exact hlen,
          by rw [hdrop]; exact hchain, hver, ?_⟩
  intro hterm
  cases hspecs : specs with
  | nil => rfl
  | cons s rest =>
    subst hspecs
    cases hrows : rows with
    | nil => rw [hrows] at hlen; simp at hlen
    | cons r rs =>
      rw [hrows] at hchain
      obtain ⟨-, hedge, -⟩ := hchain
      rcases hterm with hS | hR
      · rw [hS] at hedge; simp [ALLOWED_TRANSITIONS] at hedge
      · rw [hR] at hedge; simp [ALLOWED_TRANSITIONS] at hedge

/-- **C7.** For a fresh `payments.authorized` event whose payment exists in
status APPROVED, `handle_authorized` applies the two back-to-back transitions
APPROVED→AUTHORIZED→CAPTURED, appends two timeline rows sharing the event's
id, one AUTHORIZED attempt row with the payload's attempt number and latency,
and exactly one `payments.captured` outbox event carrying the payment's
amount, currency and customer. -/
theorem C7_handle_authorized
    (st : OrchState) (ev : OrchEvent) (p : Payment)
    (hU : Orch.UniqueIds st.payments)
    (hseen : ev.event_id ∉ st.inbox)
    (hf : Orch.find_payment st.payments ev.aggregate_id = some p)
    (hstatus : p.status = .APPROVED) :
    ∃ ps' : List Payment,
      Orch.handle_authorized st ev = .ok
        { payments := ps',
          timeline := st.timeline ++
            [{ payment_id := p.payment_id, from_state := some .APPROVED,
               to_state := .AUTHORIZED, reason := "provider_authorized",
               event_id := some ev.event_id },
             { payment_id := p.payment_id, from_state := some .AUTHORIZED,
               to_state := .CAPTURED, reason := "capture_requested",
               event_id := some ev.event_id }],
          attempts := st.attempts ++
            [{ payment_id := p.payment_id,
               attempt_number := ev.attempt_number.getD 1,
               result := "AUTHORIZED", latency_ms := ev.latency_ms.getD 0,
               error_code := none }],
          inbox := st.inbox ++ [ev.event_id],
          outbox := st.outbox ++
            [{ aggregate_id := p.payment_id, event_type := "payments.captured",
               topic := "payments.captured", trace_id := ev.trace_id,
               payload := .captured p.amount_cents p.currency p.customer_id }],
          dup_skipped := st.dup_skipped } ∧
      Orch.find_payment ps' ev.aggregate_id =
        some { p with
                status := .CAPTURED,
                state_version := p.state_version + 2 } := by
  have hpid : p.payment_id = ev.aggregate_id := Orch.find_payment_id hf
  have hf' : Orch.find_payment st.payments p.payment_id = some p := by
    rw [hpid]; exact hf
  have hv1 : PayState.AUTHORIZED ∈ ALLOWED_TRANSITIONS p.status := by
    rw [hstatus]; simp [ALLOWED_TRANSITIONS]
  have step1 := Orch.transition_ok st p .AUTHORIZED
    "provider_authorized" (some ev.event_id) hU hf' hv1
  have hU1 := Orch.UniqueIds_map_occ st.payments .AUTHORIZED
    p.payment_id p.status p.state_version hU
  have hf1 := Orch.find_payment_map_occ st.payments p.payment_id p .AUTHORIZED hU hf'
  have hv2 : PayState.CAPTURED ∈
      ALLOWED_TRANSITIONS (PayState.AUTHORIZED) := by
    simp [ALLOWED_TRANSITIONS]
  refine ⟨(st.payments.map
      (Orch.occ_apply .AUTHORIZED p.payment_id p.status p.state_version)).map
      (Orch.occ_apply .CAPTURED p.payment_id .AUTHORIZED (p.state_version + 1)),
    ?_, ?_⟩
  · have step2 := Orch.transition_ok
      { st with
         payments := st.payments.map
           (Orch.occ_apply .AUTHORIZED p.payment_id p.status p.state_version),
         timeline := st.timeline ++
           [{ payment_id := p.payment_id, from_state := some p.status,
              to_state := .AUTHORIZED, reason := "provider_authorized",
              event_id := some ev.event_id }] }
      { p with
         status := .AUTHORIZED,
         state_version := p.state_version + 1 }
      .CAPTURED
      "capture_requested" (some ev.event_id) hU1 hf1 hv2
    rw [hstatus] at step1
    simp only [Orch.handle_authorized, hseen, if_neg, hf]
    rw [hstatus] at step2 ⊢
    simp only [bind, Except.bind, step1, step2]
    simp
  · have hfind2 := Orch.find_payment_map_occ
      (st.payments.map
        (Orch.occ_apply .AUTHORIZED p.payment_id p.status p.state_version))
      p.payment_id
      { p with
         status := .AUTHORIZED,
         state_version := p.state_version + 1 }
      .CAPTURED hU1 hf1
    rw [← hpid]
    simpa using hfind2

/-- **C4 (amended).** For a fresh `payments.failed` event whose payment
exists and is not in a terminal state (SETTLED or REVERSED — there the
handler raises and the transaction rolls back, see the counterexample),
`handle_failed` transitions the payment to FAILED unless it is already
FAILED, appends one FAILED attempt row with the payload's error code, and —
exactly when the error code is PROVIDER_TIMEOUT — further transitions to
REVERSED and enqueues one `payments.reversed` outbox event with reason
`provider_timeout_compensation` and `source_event_id` equal to the event's
id; for any other error code no REVERSED transition and no
`payments.reversed` event is produced. -/
theorem C4_handle_failed
    (st : OrchState) (ev : OrchEvent) (p : Payment)
    (hU : Orch.UniqueIds st.payments)
    (hseen : ev.event_id ∉ st.inbox)
    (hf : Orch.find_payment st.payments ev.aggregate_id = some p)
    (hnt : p.status ≠ .SETTLED ∧ p.status ≠ .REVERSED) :
    ∃ st' : OrchState,
      Orch.handle_failed st ev = .ok st' ∧
      st'.attempts = st.attempts ++
        [{ payment_id := p.payment_id,
           attempt_number := ev.attempt_number.getD 1,
           result := "FAILED", latency_ms := ev.latency_ms.getD 0,
           error_code := some (ev.error_code.getD "UNKNOWN") }] ∧
      st'.inbox = st.inbox ++ [ev.event_id] ∧
      st'.timeline = st.timeline ++
        (if p.status = .FAILED then [] else
          [{ payment_id := p.payment_id, from_state := some p.status,
             to_state := .FAILED,
             reason := "provider_failed:" ++ ev.error_code.getD "UNKNOWN",
             event_id := some ev.event_id }]) ++
        (if ev.error_code = some "PROVIDER_TIMEOUT" then
          [{ payment_id := p.payment_id, from_state := some .FAILED,
             to_state := .REVERSED, reason := "provider_timeout_compensation",
             event_id := some ev.event_id }] else []) ∧
      (ev.error_code = some "PROVIDER_TIMEOUT" →
        Orch.find_payment st'.payments ev.aggregate_id =
          some { p with
                  status := .REVERSED,
                  state_version := p.state_version +
                    (if p.status = .FAILED then 1 else 2) } ∧
        st'.outbox = st.outbox ++
          [{ aggregate_id := p.payment_id, event_type := "payments.reversed",
             topic := "payments.reversed", trace_id := ev.trace_id,
             payload := .reversed "provider_timeout_compensation"
               ev.event_id }]) ∧
      (ev.error_code ≠ some "PROVIDER_TIMEOUT" →
        Orch.find_payment st'.payments ev.aggregate_id =
          some { p with
                  status := .FAILED,
                  state_version := p.state_version +
                    (if p.status = .FAILED then 0 else 1) } ∧
        st'.outbox = st.outbox) := by
  have hpid : p.payment_id = ev.aggregate_id := Orch.find_payment_id hf
  have hf' : Orch.find_payment st.payments p.payment_id = some p := by
    rw [hpid]; exact hf
  by_cases hfailed : p.status = PayState.FAILED
  · by_cases htime : ev.error_code = some "PROVIDER_TIMEOUT"
    · -- already FAILED, provider timeout: one transition FAILED → REVERSED
      have hv : PayState.REVERSED ∈ ALLOWED_TRANSITIONS p.status := by
        rw [hfailed]; simp [ALLOWED_TRANSITIONS]
      have step := Orch.transition_ok st p .REVERSED
        "provider_timeout_compensation" (some ev.event_id) hU hf' hv
      refine ⟨{ payments := st.payments.map
                  (Orch.occ_apply .REVERSED p.payment_id p.status p.state_version),
                timeline := st.timeline ++
                  [{ payment_id := p.payment_id, from_state := some p.status,
                     to_state := .REVERSED,
                     reason := "provider_timeout_compensation",
                     event_id := some ev.event_id }],
                attempts := st.attempts ++
                  [{ payment_id := p.payment_id,
                     attempt_number := ev.attempt_number.getD 1,
                     result := "FAILED", latency_ms := ev.latency_ms.getD 0,
                     error_code := some (ev.error_code.getD "UNKNOWN") }],
                inbox := st.inbox ++ [ev.event_id],
                outbox := st.outbox ++
                  [{ aggregate_id := p.payment_id,
                     event_type := "payments.reversed",
                     topic := "payments.reversed", trace_id := ev.trace_id,
                     payload := .reversed "provider_timeout_compensation"
                       ev.event_id }],
                dup_skipped := st.dup_skipped }, ?_, ?_, ?_, ?_, ?_, ?_⟩
      · simp only [Orch.handle_failed, hseen, if_neg, not_false_iff, hf]
        simp only [hfailed, htime, bind, Except.bind, ne_eq, not_true_eq_false,
          if_false, if_true, ite_true, ite_false, reduceIte,
          Orch.transition_set_attempts, step, Except.map]
      · simp
      · simp
      · simp [hfailed, htime]
      · intro _
        constructor
        · rw [← hpid]
          simpa [hfailed] using Orch.find_payment_map_occ _ _ _ .REVERSED hU hf'
        · simp
      · intro hcontra; exact absurd htime hcontra
    · -- already FAILED, non-timeout error: no transition at all
      refine ⟨{ st with
                 attempts := st.attempts ++
                   [{ payment_id := p.payment_id,
                      attempt_number := ev.attempt_number.getD 1,
                      result := "FAILED", latency_ms := ev.latency_ms.getD 0,
                      error_code := some (ev.error_code.getD "UNKNOWN") }],
                 inbox := st.inbox ++ [ev.event_id] }, ?_, ?_, ?_, ?_, ?_, ?_⟩
      · simp only [Orch.handle_failed, hseen, if_neg, not_false_iff, hf]
        simp only [hfailed, htime, bind, Except.bind, ne_eq, not_true_eq_false,
          if_false, if_true, ite_true, ite_false, reduceIte]
      · simp
      · simp
      · simp [hfailed, htime]
      · intro hcontra; exact absurd hcontra htime
      · intro _
        constructor
        · rw [← hpid, ← hfailed]
          simpa using hf'
        · simp
  · have hv1 : PayState.FAILED ∈ ALLOWED_TRANSITIONS p.status := by
      cases hps : p.status
      case SETTLED => exact absurd hps hnt.1
      case REVERSED => exact absurd hps hnt.2
      case FAILED => exact absurd hps hfailed
      all_goals simp [ALLOWED_TRANSITIONS]
    have step1 := Orch.transition_ok st p .FAILED
      ("provider_failed:" ++ ev.error_code.getD "UNKNOWN") (some ev.event_id)
      hU hf' hv1
    have hU1 := Orch.UniqueIds_map_occ st.payments .FAILED
      p.payment_id p.status p.state_version hU
    have hf1 := Orch.find_payment_map_occ st.payments p.payment_id p .FAILED hU hf'
    by_cases htime : ev.error_code = some "PROVIDER_TIMEOUT"
    · -- not yet FAILED, provider timeout: two transitions
      have hv2 : PayState.REVERSED ∈ ALLOWED_TRANSITIONS PayState.FAILED := by
        simp [ALLOWED_TRANSITIONS]
      have step2 := Orch.transition_ok
        { payments := st.payments.map
            (Orch.occ_apply .FAILED p.payment_id p.status p.state_version),
          timeline := st.timeline ++
            [{ payment_id := p.payment_id, from_state := some p.status,
               to_state := .FAILED,
               reason := "provider_failed:" ++ ev.error_code.getD "UNKNOWN",
               event_id := some ev.event_id }],
          attempts := st.attempts ++
            [{ payment_id := p.payment_id,
               attempt_number := ev.attempt_number.getD 1,
               result := "FAILED", latency_ms := ev.latency_ms.getD 0,
               error_code := some (ev.error_code.getD "UNKNOWN") }],
          inbox := st.inbox, outbox := st.outbox,
          dup_skipped := st.dup_skipped }
        { p with
           status := .FAILED,
           state_version := p.state_version + 1 }
        .REVERSED
        "provider_timeout_compensation" (some ev.event_id) hU1 hf1 hv2
      refine ⟨{ payments := (st.payments.map
                  (Orch.occ_apply .FAILED p.payment_id p.status p.state_version)).map
                  (Orch.occ_apply .REVERSED p.payment_id .FAILED (p.state_version + 1)),
                timeline := (st.timeline ++
                  [{ payment_id := p.payment_id, from_state := some p.status,
                     to_state := .FAILED,
                     reason := "provider_failed:" ++ ev.error_code.getD "UNKNOWN",
                     event_id := some ev.event_id }]) ++
                  [{ payment_id := p.payment_id, from_state := some .FAILED,
                     to_state := .REVERSED,
                     reason := "provider_timeout_compensation",
                     event_id := some ev.event_id }],
                attempts := st.attempts ++
                  [{ payment_id := p.payment_id,
                     attempt_number := ev.attempt_number.getD 1,
                     result := "FAILED", latency_ms := ev.latency_ms.getD 0,
                     error_code := some (ev.error_code.getD "UNKNOWN") }],
                inbox := st.inbox ++ [ev.event_id],
                outbox := st.outbox ++
                  [{ aggregate_id := p.payment_id,
                     event_type := "payments.reversed",
                     topic := "payments.reversed", trace_id := ev.trace_id,
                     payload := .reversed "provider_timeout_compensation"
                       ev.event_id }],
                dup_skipped := st.dup_skipped }, ?_, ?_, ?_, ?_, ?_, ?_⟩
      · rw [htime] at step1 step2
        simp only [Orch.handle_failed, hseen, if_neg, not_false_iff, hf]
        simp only [hfailed, htime, bind, Except.bind, ne_eq, not_false_eq_true,
          if_false, if_true, ite_true, ite_false, reduceIte, step1,
          Orch.transition_set_attempts, step2, Except.map]
      · simp
      · simp
      · simp [hfailed, htime]
      · intro _
        constructor
        · have hfind2 := Orch.find_payment_map_occ
            (st.payments.map
              (Orch.occ_apply .FAILED p.payment_id p.status p.state_version))
            p.payment_id
            { p with
               status := .FAILED,
               state_version := p.state_version + 1 }
            .REVERSED hU1 hf1
          rw [← hpid]
          simp only [hfailed, ite_false, reduceIte]
          simpa using hfind2
        · simp
      · intro hcontra; exact absurd htime hcontra
    · -- not yet FAILED, non-timeout error: one transition to FAILED
      refine ⟨{ payments := st.payments.map
                  (Orch.occ_apply .FAILED p.payment_id p.status p.state_version),
                timeline := st.timeline ++
                  [{ payment_id := p.payment_id, from_state := some p.status,
                     to_state := .FAILED,
                     reason := "provider_failed:" ++ ev.error_code.getD "UNKNOWN",
                     event_id := some ev.event_id }],
                attempts := st.attempts ++
                  [{ payment_id := p.payment_id,
                     attempt_number := ev.attempt_number.getD 1,
                     result := "FAILED", latency_ms := ev.latency_ms.getD 0,
                     error_code := some (ev.error_code.getD "UNKNOWN") }],
                inbox := st.inbox ++ [ev.event_id],
                outbox := st.outbox,
                dup_skipped := st.dup_skipped }, ?_, ?_, ?_, ?_, ?_, ?_⟩
      · simp only [Orch.handle_failed, hseen, if_neg, not_false_iff, hf]
        simp only [hfailed, htime, bind, Except.bind, ne_eq, not_false_eq_true,
          if_false, if_true, ite_true, ite_false, reduceIte, step1,
          Orch.transition_set_attempts, Except.map]
      · simp
      · simp
      · simp [hfailed, htime]
      · intro hcontra; exact absurd hcontra htime
      · intro _
        constructor
        · rw [← hpid]
          simp only [hfailed, ite_false, reduceIte]
          simpa using hf1
        · simp

namespace Ledger

lemma acc_lookup_set_same {accs : List (String × Int)} {k : String} {b : Int}
    (v : Int) (h : acc_lookup accs k = some b) :
    acc_lookup (acc_set accs k v) k = some v := by
  induction accs with
  | nil => simp [acc_lookup] at h
  | cons ab abs ih =>
    by_cases hk : ab.1 = k
    · simp [acc_lookup, acc_set, hk]
    · have h' : acc_lookup abs k = some b := by
        simpa [acc_lookup, hk] using h
      simpa [acc_lookup, acc_set, hk] using ih h'

lemma acc_lookup_set_other (accs : List (String × Int)) (k k' : String)
    (v : Int) (hne : k' ≠ k) :
    acc_lookup (acc_set accs k v) k' = acc_lookup accs k' := by
  induction accs with
  | nil => simp [acc_lookup, acc_set]
  | cons ab abs ih =>
    by_cases hk : ab.1 = k
    · have hk' : ¬ ab.1 = k' := by rw [hk]; exact fun hc => hne hc.symm
      simpa [acc_lookup, acc_set, hk, hk', hne, Ne.symm hne] using ih
    · by_cases hk2 : ab.1 = k'
      · simp [acc_lookup, acc_set, hk, hk2, hne, Ne.symm hne]
      · simpa [acc_lookup, acc_set, hk, hk2] using ih

lemma tx_dir_sum_append (l : List LedgerEntry) (e : LedgerEntry) (tx : String)
    (d : Dir) :
    tx_dir_sum (l ++ [e]) tx d = tx_dir_sum l tx d +
      (if e.transaction_id = tx ∧ e.direction = d then e.amount_cents else 0) := by
  by_cases h1 : e.transaction_id = tx
  · by_cases h2 : e.direction = d
    · simp [tx_dir_sum, List.filter_append, h1, h2]
    · simp [tx_dir_sum, List.filter_append, h1, h2]
  · simp [tx_dir_sum, List.filter_append, h1]

end Ledger

/-- **C3.** A fresh `payments.captured` event makes `handle_captured` insert
exactly the two settlement legs `(customer_cash, DEBIT, amount)` and
`(merchant_receivable, CREDIT, amount)` for transaction id
`settlement:<aggregate_id>`, decrement `customer_cash` and increment
`merchant_receivable` by the amount, and preserve the per-transaction
Σdebits = Σcredits invariant; and it raises `ledger imbalance detected`
(rolling the transaction back) whenever the re-read entries for that
transaction have unequal debit and credit sums. -/
theorem C3_handle_captured_double_entry :
    (∀ (st : LedgerState) (ev : CapturedEvent) (bc bm : Int),
      ev.event_id ∉ st.inbox →
      Ledger.acc_lookup st.accounts "customer_cash" = some bc →
      Ledger.acc_lookup st.accounts "merchant_receivable" = some bm →
      (∀ tx, Ledger.tx_dir_sum st.entries tx .DEBIT =
        Ledger.tx_dir_sum st.entries tx .CREDIT) →
      ∃ st' : LedgerState,
        Ledger.handle_captured st ev = .ok st' ∧
        st'.entries = st.entries ++
          [{ transaction_id := "settlement:" ++ ev.aggregate_id,
             account_id := "customer_cash", direction := .DEBIT,
             amount_cents := ev.amount_cents },
           { transaction_id := "settlement:" ++ ev.aggregate_id,
             account_id := "merchant_receivable", direction := .CREDIT,
             amount_cents := ev.amount_cents }] ∧
        Ledger.acc_lookup st'.accounts "customer_cash" =
          some (bc - ev.amount_cents) ∧
        Ledger.acc_lookup st'.accounts "merchant_receivable" =
          some (bm + ev.amount_cents) ∧
        st'.inbox = st.inbox ++ [ev.event_id] ∧
        st'.outbox = st.outbox ++
          [{ aggregate_id := ev.aggregate_id, event_type := "payments.settled",
             topic := "payments.settled", trace_id := ev.trace_id,
             payload := .settled ("settlement:" ++ ev.aggregate_id)
               ev.amount_cents }] ∧
        (∀ tx, Ledger.tx_dir_sum st'.entries tx .DEBIT =
          Ledger.tx_dir_sum st'.entries tx .CREDIT)) ∧
    (∀ (st : LedgerState) (ev : CapturedEvent) (bc bm : Int),
      ev.event_id ∉ st.inbox →
      Ledger.acc_lookup st.accounts "customer_cash" = some bc →
      Ledger.acc_lookup st.accounts "merchant_receivable" = some bm →
      Ledger.tx_dir_sum (st.entries ++
          [{ transaction_id := "settlement:" ++ ev.aggregate_id,
             account_id := "customer_cash", direction := .DEBIT,
             amount_cents := ev.amount_cents },
           { transaction_id := "settlement:" ++ ev.aggregate_id,
             account_id := "merchant_receivable", direction := .CREDIT,
             amount_cents := ev.amount_cents }])
          ("settlement:" ++ ev.aggregate_id) .DEBIT ≠
        Ledger.tx_dir_sum (st.entries ++
          [{ transaction_id := "settlement:" ++ ev.aggregate_id,
             account_id := "customer_cash", direction := .DEBIT,
             amount_cents := ev.amount_cents },
           { transaction_id := "settlement:" ++ ev.aggregate_id,
             account_id := "merchant_receivable", direction := .CREDIT,
             amount_cents := ev.amount_cents }])
          ("settlement:" ++ ev.aggregate_id) .CREDIT →
      Ledger.handle_captured st ev = .error "ledger imbalance detected") := by
  have hne : ("merchant_receivable" : String) ≠ "customer_cash" := by decide
  constructor
  · intro st ev bc bm hseen hc hm hbal
    set a := ev.amount_cents with ha
    set tx_id := "settlement:" ++ ev.aggregate_id with htx
    set e1 : LedgerEntry :=
      { transaction_id := tx_id, account_id := "customer_cash",
        direction := .DEBIT, amount_cents := a } with he1
    set e2 : LedgerEntry :=
      { transaction_id := tx_id, account_id := "merchant_receivable",
        direction := .CREDIT, amount_cents := a } with he2
    have h1 : Ledger.post_entry st tx_id "customer_cash" .DEBIT a =
        .ok { st with
               entries := st.entries ++ [e1],
               accounts := Ledger.acc_set st.accounts "customer_cash" (bc - a) } := by
      simp [Ledger.post_entry, hc, he1]
    have hm1 : Ledger.acc_lookup
        (Ledger.acc_set st.accounts "customer_cash" (bc - a))
        "merchant_receivable" = some bm := by
      rw [Ledger.acc_lookup_set_other st.accounts "customer_cash"
        "merchant_receivable" (bc - a) hne]
      exact hm
    have h2 : Ledger.post_entry
        { st with
           entries := st.entries ++ [e1],
           accounts := Ledger.acc_set st.accounts "customer_cash" (bc - a) }
        tx_id "merchant_receivable" .CREDIT a =
        .ok { st with
               entries := (st.entries ++ [e1]) ++ [e2],
               accounts := Ledger.acc_set
                 (Ledger.acc_set st.accounts "customer_cash" (bc - a))
                 "merchant_receivable" (bm + a) } := by
      simp [Ledger.post_entry, hm1, he2]
    have hdsum : Ledger.tx_dir_sum ((st.entries ++ [e1]) ++ [e2]) tx_id .DEBIT =
        Ledger.tx_dir_sum st.entries tx_id .DEBIT + a := by
      rw [Ledger.tx_dir_sum_append, Ledger.tx_dir_sum_append]
      simp [he1, he2]
    have hcsum : Ledger.tx_dir_sum ((st.entries ++ [e1]) ++ [e2]) tx_id .CREDIT =
        Ledger.tx_dir_sum st.entries tx_id .CREDIT + a := by
      rw [Ledger.tx_dir_sum_append, Ledger.tx_dir_sum_append]
      simp [he1, he2]
    have hok : Ledger.tx_dir_sum ((st.entries ++ [e1]) ++ [e2]) tx_id .DEBIT =
        Ledger.tx_dir_sum ((st.entries ++ [e1]) ++ [e2]) tx_id .CREDIT := by
      rw [hdsum, hcsum, hbal tx_id]
    refine ⟨{ accounts := Ledger.acc_set
                (Ledger.acc_set st.accounts "customer_cash" (bc - a))
                "merchant_receivable" (bm + a),
              entries := (st.entries ++ [e1]) ++ [e2],
              inbox := st.inbox ++ [ev.event_id],
              outbox := st.outbox ++
                [{ aggregate_id := ev.aggregate_id,
                   event_type := "payments.settled",
                   topic := "payments.settled", trace_id := ev.trace_id,
                   payload := .settled tx_id a }],
              dup_skipped := st.dup_skipped }, ?_, ?_, ?_, ?_, ?_, ?_, ?_⟩
    · simp only [Ledger.handle_captured, hseen, if_neg, not_false_iff,
        bind, Except.bind, ← htx, ← ha, h1, h2, hok, ne_eq, not_true_eq_false,
        if_false, ite_false, reduceIte]
    · simp [he1, he2]
    · show Ledger.acc_lookup
        (Ledger.acc_set (Ledger.acc_set st.accounts "customer_cash" (bc - a))
          "merchant_receivable" (bm + a)) "customer_cash" = some (bc - a)
      rw [Ledger.acc_lookup_set_other _ _ _ _ (Ne.symm hne)]
      exact Ledger.acc_lookup_set_same (bc - a) hc
    · exact Ledger.acc_lookup_set_same (bm + a) hm1
    · rfl
    · rfl
    · intro tx
      by_cases htxeq : tx = tx_id
      · subst htxeq
        show Ledger.tx_dir_sum ((st.entries ++ [e1]) ++ [e2]) tx_id .DEBIT =
          Ledger.tx_dir_sum ((st.entries ++ [e1]) ++ [e2]) tx_id .CREDIT
        rw [hdsum, hcsum, hbal tx_id]
      · have hne1 : ¬ (e1.transaction_id = tx ∧ e1.direction = Dir.DEBIT) := by
          simp [he1]; intro hc'; exact absurd hc'.symm htxeq
        show Ledger.tx_dir_sum ((st.entries ++ [e1]) ++ [e2]) tx .DEBIT =
          Ledger.tx_dir_sum ((st.entries ++ [e1]) ++ [e2]) tx .CREDIT
        rw [Ledger.tx_dir_sum_append, Ledger.tx_dir_sum_append,
          Ledger.tx_dir_sum_append, Ledger.tx_dir_sum_append]
        have hne2 : (e1.transaction_id = tx) = False := by
          simp [he1]; intro hc'; exact absurd hc'.symm htxeq
        have hne3 : (e2.transaction_id = tx) = False := by
          simp [he2]; intro hc'; exact absurd hc'.symm htxeq
        simp [hne2, hne3, hbal tx]
  · intro st ev bc bm hseen hc hm hneq
    set a := ev.amount_cents with ha
    set tx_id := "settlement:" ++ ev.aggregate_id with htx
    set e1 : LedgerEntry :=
      { transaction_id := tx_id, account_id := "customer_cash",
        direction := .DEBIT, amount_cents := a } with he1
    set e2 : LedgerEntry :=
      { transaction_id := tx_id, account_id := "merchant_receivable",
        direction := .CREDIT, amount_cents := a } with he2
    have h1 : Ledger.post_entry st tx_id "customer_cash" .DEBIT a =
        .ok { st with
               entries := st.entries ++ [e1],
               accounts := Ledger.acc_set st.accounts "customer_cash" (bc - a) } := by
      simp [Ledger.post_entry, hc, he1]
    have hm1 : Ledger.acc_lookup
        (Ledger.acc_set st.accounts "customer_cash" (bc - a))
        "merchant_receivable" = some bm := by
      rw [Ledger.acc_lookup_set_other st.accounts "customer_cash"
        "merchant_receivable" (bc - a) hne]
      exact hm
    have h2 : Ledger.post_entry
        { st with
           entries := st.entries ++ [e1],
           accounts := Ledger.acc_set st.accounts "customer_cash" (bc - a) }
        tx_id "merchant_receivable" .CREDIT a =
        .ok { st with
               entries := (st.entries ++ [e1]) ++ [e2],
               accounts := Ledger.acc_set
                 (Ledger.acc_set st.accounts "customer_cash" (bc - a))
                 "merchant_receivable" (bm + a) } := by
      simp [Ledger.post_entry, hm1, he2]
    have hneq' : Ledger.tx_dir_sum ((st.entries ++ [e1]) ++ [e2]) tx_id .DEBIT ≠
        Ledger.tx_dir_sum ((st.entries ++ [e1]) ++ [e2]) tx_id .CREDIT := by
      simpa [he1, he2, htx, ha, List.append_assoc] using hneq
    simp only [Ledger.handle_captured, hseen, if_neg, not_false_iff,
      bind, Except.bind, ← htx, ← ha, h1, h2, hneq', ne_eq, ite_true,
      if_true, reduceIte, not_false_eq_true]

/-- **C5.** The risk rules fire in order with first match winning — DENY
`high_frequency` for velocity > 50, REVIEW `high_amount` for amount > 100000,
REVIEW `multiple_failed_attempts` for ≥ 3 failed attempts, REVIEW
`velocity_threshold` for velocity > 20, else APPROVE `rule_passed` — and the
handler enqueues the decision to `risk.approved` exactly when it is APPROVE
and to `risk.denied` otherwise, with `{decision, reason, customer_id}`. -/
theorem C5_risk_rule_decision :
    (∀ v f a : Int,
      (v > 50 →
        Risk.rule_decision default_risk_config v f a = ("DENY", "high_frequency")) ∧
      (v ≤ 50 → a > 100000 →
        Risk.rule_decision default_risk_config v f a = ("REVIEW", "high_amount")) ∧
      (v ≤ 50 → a ≤ 100000 → f ≥ 3 →
        Risk.rule_decision default_risk_config v f a =
          ("REVIEW", "multiple_failed_attempts")) ∧
      (v ≤ 50 → a ≤ 100000 → f < 3 → v > 20 →
        Risk.rule_decision default_risk_config v f a =
          ("REVIEW", "velocity_threshold")) ∧
      (v ≤ 50 → a ≤ 100000 → f < 3 → v ≤ 20 →
        Risk.rule_decision default_risk_config v f a = ("APPROVE", "rule_passed"))) ∧
    (∀ (st : RiskState) (ev : RiskEvent) (v f : Int),
      ev.event_id ∉ st.inbox →
      (Risk.handle_payment_requested default_risk_config st ev v f).outbox =
        st.outbox ++
          [{ aggregate_id := ev.aggregate_id,
             event_type :=
               if (Risk.rule_decision default_risk_config v f ev.amount_cents).1
                   = "APPROVE" then "risk.approved" else "risk.denied",
             topic :=
               if (Risk.rule_decision default_risk_config v f ev.amount_cents).1
                   = "APPROVE" then "risk.approved" else "risk.denied",
             trace_id := ev.trace_id,
             payload := .risk_decision
               (Risk.rule_decision default_risk_config v f ev.amount_cents).1
               (Risk.rule_decision default_risk_config v f ev.amount_cents).2
               ev.customer_id }]) := by
  constructor
  · intro v f a
    refine ⟨?_, ?_, ?_, ?_, ?_⟩
    · intro h1
      simp only [Risk.rule_decision, default_risk_config]
      rw [if_pos (by omega)]
    · intro h1 h2
      simp only [Risk.rule_decision, default_risk_config]
      rw [if_neg (by omega), if_pos (by omega)]
    · intro h1 h2 h3
      simp only [Risk.rule_decision, default_risk_config]
      rw [if_neg (by omega), if_neg (by omega), if_pos (by omega)]
    · intro h1 h2 h3 h4
      simp only [Risk.rule_decision, default_risk_config]
      rw [if_neg (by omega), if_neg (by omega), if_neg (by omega),
        if_pos (by omega)]
    · intro h1 h2 h3 h4
      simp only [Risk.rule_decision, default_risk_config]
      rw [if_neg (by omega), if_neg (by omega), if_neg (by omega),
        if_neg (by omega)]
  · intro st ev v f hseen
    simp only [Risk.handle_payment_requested, hseen, if_neg, not_false_iff]
    split
    · split <;> rfl
    · rfl

/-- **C6.** A valid `provider.authorize.requested` event whose `customer_id`
starts (case-insensitively) with `force-timeout` times out on all three
attempts with backoff waits of 1, 2 and 4 seconds, and on exhaustion exactly
one `payments.failed` event with `PROVIDER_TIMEOUT` and exactly one
`payments.dlq` event with RETRY_EXHAUSTED / retryable / replay topic
`provider.authorize.requested` / the original envelope are enqueued. -/
theorem C6_force_timeout_exhaustion
    (st : ProvState) (ev : ProviderEvent) (c cur : String) (a : Int)
    (rand : Nat → Outcome) (lat : Nat → Int)
    (hseen : ev.event_id ∉ st.inbox)
    (hc : ev.customer_id = some c)
    (hforce : starts_with (lower_str c) "force-timeout" = true)
    (hcur : ev.currency = some cur) (hlen : cur.length = 3)
    (ha : ev.amount_cents = some a) (hpos : 0 < a) :
    (∀ k, Provider.determine_outcome c rand k = .TIMEOUT) ∧
    Provider.handle_authorize_request st ev rand lat =
      { inbox := st.inbox ++ [ev.event_id],
        attempts := st.attempts,
        outbox := st.outbox ++
          [{ aggregate_id := ev.aggregate_id, event_type := "payments.failed",
             topic := "payments.failed", trace_id := ev.trace_id,
             payload := .failed 3 0 "PROVIDER_TIMEOUT" },
           { aggregate_id := ev.aggregate_id, event_type := "payments.dlq",
             topic := "payments.dlq", trace_id := ev.trace_id,
             payload := .dlq "PROVIDER_TIMEOUT" "RETRY_EXHAUSTED" true
               "provider-adapter" ev.event_id
               (some ("provider.authorize.requested", ev)) }],
        sleeps := st.sleeps ++ [1, 2, 4],
        dup_skipped := st.dup_skipped } := by
  have houtcome : ∀ k, Provider.determine_outcome c rand k = .TIMEOUT := by
    intro k
    simp [Provider.determine_outcome, hforce]
  refine ⟨houtcome, ?_⟩
  have hcne : ¬ (c = "") := by
    intro hceq
    rw [hceq] at hforce
    exact absurd hforce (by decide)
  have hval : Provider.validate_authorize_payload ev = .ok (c, a, cur) := by
    simp [Provider.validate_authorize_payload, hc, hcur, ha, hcne, hlen,
      not_le.mpr hpos]
  simp only [Provider.handle_authorize_request, hseen, if_neg, not_false_iff,
    hval]
  simp only [Provider.attempt_loop, houtcome, Provider.enqueue_dlq]
  norm_num

namespace Orch

lemma transition_ok_inbox {st : OrchState} {p : Payment} {ns : PayState}
    {r : String} {e : Option String} {s : OrchState} {q : Payment}
    (h : transition st p ns r e = .ok (s, q)) : s.inbox = st.inbox := by
  unfold transition at h
  by_cases hv : ns ∈ ALLOWED_TRANSITIONS p.status
  · simp only [validate_transition, hv, if_pos, bind, Except.bind] at h
    split at h
    · cases h
    · injection h with h'
      injection h' with hA hB
      rw [← hA]
  · simp [validate_transition, hv, bind, Except.bind] at h

lemma inbox_delta_nodup {st st' : OrchState} {e : String}
    (hd : InboxDelta st st' e) (hnd : st.inbox.Nodup) : st'.inbox.Nodup := by
  rcases hd with h | ⟨hmem, h⟩
  · rw [h]; exact hnd
  · rw [h]
    simp [List.nodup_append, hnd, hmem]

lemma handle_risk_approved_inbox {st st' : OrchState} {ev : OrchEvent}
    (h : handle_risk_approved st ev = .ok st') :
    InboxDelta st st' ev.event_id := by
  unfold handle_risk_approved at h
  by_cases hseen : ev.event_id ∈ st.inbox
  · rw [if_pos hseen] at h
    injection h with h'
    left; rw [← h']; rfl
  · rw [if_neg hseen] at h
    right
    refine ⟨hseen, ?_⟩
    cases hfind : find_payment st.payments ev.aggregate_id with
    | none =>
      rw [hfind] at h
      try dsimp only at h
      injection h with h'
      rw [← h']
    | some payment =>
      rw [hfind] at h
      try dsimp only at h
      cases htr : transition st payment .APPROVED "risk_approved"
          (some ev.event_id) with
      | error msg => rw [htr] at h; simp [bind, Except.bind] at h
      | ok pr =>
        obtain ⟨s1, p1⟩ := pr
        rw [htr] at h
        simp only [bind, Except.bind] at h
        try dsimp only at h
        injection h with h'
        rw [← h']
        simp [transition_ok_inbox htr]

lemma handle_risk_denied_inbox {st st' : OrchState} {ev : OrchEvent}
    (h : handle_risk_denied st ev = .ok st') :
    InboxDelta st st' ev.event_id := by
  unfold handle_risk_denied at h
  by_cases hseen : ev.event_id ∈ st.inbox
  · rw [if_pos hseen] at h
    injection h with h'
    left; rw [← h']; rfl
  · rw [if_neg hseen] at h
    right
    refine ⟨hseen, ?_⟩
    cases hfind : find_payment st.payments ev.aggregate_id with
    | none =>
      rw [hfind] at h
      try dsimp only at h
      injection h with h'
      rw [← h']
    | some payment =>
      rw [hfind] at h
      try dsimp only at h
      cases htr : transition st payment
          (if ev.decision = some "REVIEW" then .RISK_REVIEW else .FAILED)
          (if ev.decision = some "REVIEW" then "risk_review_required"
            else "risk_denied")
          (some ev.event_id) with
      | error msg => rw [htr] at h; simp [bind, Except.bind] at h
      | ok pr =>
        obtain ⟨s1, p1⟩ := pr
        rw [htr] at h
        simp only [bind, Except.bind] at h
        try dsimp only at h
        injection h with h'
        rw [← h']
        simp [transition_ok_inbox htr]

lemma handle_authorized_inbox {st st' : OrchState} {ev : OrchEvent}
    (h : handle_authorized st ev = .ok st') :
    InboxDelta st st' ev.event_id := by
  unfold handle_authorized at h
  by_cases hseen : ev.event_id ∈ st.inbox
  · rw [if_pos hseen] at h
    injection h with h'
    left; rw [← h']; rfl
  · rw [if_neg hseen] at h
    right
    refine ⟨hseen, ?_⟩
    cases hfind : find_payment st.payments ev.aggregate_id with
    | none =>
      rw [hfind] at h
      try dsimp only at h
      injection h with h'
      rw [← h']
    | some payment =>
      rw [hfind] at h
      try dsimp only at h
      cases htr1 : transition st payment .AUTHORIZED "provider_authorized"
          (some ev.event_id) with
      | error msg => rw [htr1] at h; simp [bind, Except.bind] at h
      | ok pr1 =>
        obtain ⟨s1, p1⟩ := pr1
        rw [htr1] at h
        simp only [bind, Except.bind] at h
        try dsimp only at h
        cases htr2 : transition s1 p1 .CAPTURED "capture_requested"
            (some ev.event_id) with
        | error msg => rw [htr2] at h; simp [bind, Except.bind] at h
        | ok pr2 =>
          obtain ⟨s2, p2⟩ := pr2
          rw [htr2] at h
          simp only [bind, Except.bind] at h
          try dsimp only at h
          injection h with h'
          rw [← h']
          simp [transition_ok_inbox htr2, transition_ok_inbox htr1]

lemma handle_failed_inbox {st st' : OrchState} {ev : OrchEvent}
    (h : handle_failed st ev = .ok st') :
    InboxDelta st st' ev.event_id := by
  unfold handle_failed at h
  by_cases hseen : ev.event_id ∈ st.inbox
  · rw [if_pos hseen] at h
    injection h with h'
    left; rw [← h']; rfl
  · rw [if_neg hseen] at h
    right
    refine ⟨hseen, ?_⟩
    cases hfind : find_payment st.payments ev.aggregate_id with
    | none =>
      rw [hfind] at h
      try dsimp only at h
      injection h with h'
      rw [← h']
    | some payment =>
      rw [hfind] at h
      try dsimp only at h
      by_cases hcond : payment.status ≠ PayState.FAILED
      · rw [if_pos hcond] at h
        cases htr : transition st payment .FAILED
            ("provider_failed:" ++ ev.error_code.getD "UNKNOWN")
            (some ev.event_id) with
        | error msg => rw [htr] at h; simp [bind, Except.bind] at h
        | ok pr =>
          obtain ⟨s1, p1⟩ := pr
          rw [htr] at h
          simp only [bind, Except.bind] at h
          try dsimp only at h
          have hin1 : s1.inbox = st.inbox := transition_ok_inbox htr
          by_cases ht : ev.error_code = some "PROVIDER_TIMEOUT"
          · rw [if_pos ht] at h
            cases h2 : transition
                { s1 with
                   attempts := s1.attempts ++
                     [{ payment_id := p1.payment_id,
                        attempt_number := ev.attempt_number.getD 1,
                        result := "FAILED", latency_ms := ev.latency_ms.getD 0,
                        error_code := some (ev.error_code.getD "UNKNOWN") }] }
                p1 .REVERSED "provider_timeout_compensation"
                (some ev.event_id) with
            | error msg => rw [h2] at h; simp [bind, Except.bind] at h
            | ok pr2 =>
              obtain ⟨s2, p2⟩ := pr2
              rw [h2] at h
              simp only [bind, Except.bind] at h
              try dsimp only at h
              injection h with h'
              rw [← h']
              have hin2 := transition_ok_inbox h2
              try simp at hin2
              simp [hin2, hin1]
          · rw [if_neg ht] at h
            try simp only [bind, Except.bind] at h
            try dsimp only at h
            injection h with h'
            rw [← h']
            simp [hin1]
      · rw [if_neg hcond] at h
        simp only [bind, Except.bind] at h
        try dsimp only at h
        by_cases ht : ev.error_code = some "PROVIDER_TIMEOUT"
        · rw [if_pos ht] at h
          cases h2 : transition
              { st with
                 attempts := st.attempts ++
                   [{ payment_id := payment.payment_id,
                      attempt_number := ev.attempt_number.getD 1,
                      result := "FAILED", latency_ms := ev.latency_ms.getD 0,
                      error_code := some (ev.error_code.getD "UNKNOWN") }] }
              payment .REVERSED "provider_timeout_compensation"
              (some ev.event_id) with
          | error msg => rw [h2] at h; simp [bind, Except.bind] at h
          | ok pr2 =>
            obtain ⟨s2, p2⟩ := pr2
            rw [h2] at h
            simp only [bind, Except.bind] at h
            try dsimp only at h
            injection h with h'
            rw [← h']
            have hin2 := transition_ok_inbox h2
            try simp at hin2
            simp [hin2]
        · rw [if_neg ht] at h
          try simp only [bind, Except.bind] at h
          try dsimp only at h
          injection h with h'
          rw [← h']

lemma handle_settled_inbox {st st' : OrchState} {ev : OrchEvent}
    (h : handle_settled st ev = .ok st') :
    InboxDelta st st' ev.event_id := by
  unfold handle_settled at h
  by_cases hseen : ev.event_id ∈ st.inbox
  · rw [if_pos hseen] at h
    injection h with h'
    left; rw [← h']; rfl
  · rw [if_neg hseen] at h
    right
    refine ⟨hseen, ?_⟩
    cases hfind : find_payment st.payments ev.aggregate_id with
    | none =>
      rw [hfind] at h
      try dsimp only at h
      injection h with h'
      rw [← h']
    | some payment =>
      rw [hfind] at h
      try dsimp only at h
      cases htr : transition st payment .SETTLED "ledger_settled"
          (some ev.event_id) with
      | error msg => rw [htr] at h; simp [bind, Except.bind] at h
      | ok pr =>
        obtain ⟨s1, p1⟩ := pr
        rw [htr] at h
        simp only [bind, Except.bind] at h
        try dsimp only at h
        injection h with h'
        rw [← h']
        simp [transition_ok_inbox htr]

end Orch

namespace Ledger

lemma post_entry_ok_inbox {st : LedgerState} {tx acc : String} {d : Dir}
    {a : Int} {s' : LedgerState} (h : post_entry st tx acc d a = .ok s') :
    s'.inbox = st.inbox := by
  unfold post_entry at h
  cases hl : acc_lookup st.accounts acc with
  | none => rw [hl] at h; cases h
  | some bal =>
    rw [hl] at h
    injection h with h'
    rw [← h']

lemma handle_captured_inbox {st st' : LedgerState} {ev : CapturedEvent}
    (h : handle_captured st ev = .ok st') :
    st'.inbox = st.inbox ∨
      (ev.event_id ∉ st.inbox ∧ st'.inbox = st.inbox ++ [ev.event_id]) := by
  unfold handle_captured at h
  by_cases hseen : ev.event_id ∈ st.inbox
  · rw [if_pos hseen] at h
    injection h with h'
    left; rw [← h']; rfl
  · rw [if_neg hseen] at h
    simp only [bind, Except.bind] at h
    right
    refine ⟨hseen, ?_⟩
    cases h1 : post_entry st ("settlement:" ++ ev.aggregate_id)
        "customer_cash" .DEBIT ev.amount_cents with
    | error msg => rw [h1] at h; try dsimp only at h; cases h
    | ok s1 =>
      rw [h1] at h
      try dsimp only at h
      cases h2 : post_entry s1 ("settlement:" ++ ev.aggregate_id)
          "merchant_receivable" .CREDIT ev.amount_cents with
      | error msg => rw [h2] at h; try dsimp only at h; cases h
      | ok s2 =>
        rw [h2] at h
        try dsimp only at h
        split at h
        · cases h
        · injection h with h'
          rw [← h']
          simp [post_entry_ok_inbox h2, post_entry_ok_inbox h1]

end Ledger

namespace Provider

lemma attempt_loop_inbox (ev : ProviderEvent) (c : String)
    (rand : Nat → Outcome) (lat : Nat → Int) :
    ∀ (fuel attempt : Nat) (last : String) (st : ProvState),
    (attempt_loop ev c rand lat fuel attempt last st).inbox = st.inbox := by
  intro fuel
  induction fuel with
  | zero => intro attempt last st; simp [attempt_loop, enqueue_dlq]
  | succ n ih =>
    intro attempt last st
    unfold attempt_loop
    cases determine_outcome c rand attempt <;> simp [ih]

end Provider

/-- **C2.** Re-delivering an event already recorded in a service's inbox is a
no-op for every consumer handler except the `duplicate_events_skipped`
counter (`dup_bump` changes only that field), and every successful handler
commit inserts the inbox key at most once, so inbox keys stay unique
(at most one row per `(event_id, consumed_by_service)`). -/
theorem C2_duplicate_redelivery_noop :
    (∀ (st : OrchState) (ev : OrchEvent), ev.event_id ∈ st.inbox →
      Orch.handle_risk_approved st ev = .ok (Orch.dup_bump st) ∧
      Orch.handle_risk_denied st ev = .ok (Orch.dup_bump st) ∧
      Orch.handle_authorized st ev = .ok (Orch.dup_bump st) ∧
      Orch.handle_failed st ev = .ok (Orch.dup_bump st) ∧
      Orch.handle_settled st ev = .ok (Orch.dup_bump st)) ∧
    (∀ (st : LedgerState) (ev : CapturedEvent), ev.event_id ∈ st.inbox →
      Ledger.handle_captured st ev = .ok (Ledger.dup_bump st)) ∧
    (∀ (cfg : RiskConfig) (st : RiskState) (ev : RiskEvent) (v f : Int),
      ev.event_id ∈ st.inbox →
      Risk.handle_payment_requested cfg st ev v f = Risk.dup_bump st) ∧
    (∀ (st : ProvState) (ev : ProviderEvent) (rand : Nat → Outcome)
      (lat : Nat → Int), ev.event_id ∈ st.inbox →
      Provider.handle_authorize_request st ev rand lat = Provider.dup_bump st) ∧
    (∀ (st st' : OrchState) (ev : OrchEvent), st.inbox.Nodup →
      (Orch.handle_risk_approved st ev = .ok st' ∨
       Orch.handle_risk_denied st ev = .ok st' ∨
       Orch.handle_authorized st ev = .ok st' ∨
       Orch.handle_failed st ev = .ok st' ∨
       Orch.handle_settled st ev = .ok st') →
      st'.inbox.Nodup) ∧
    (∀ (st st' : LedgerState) (ev : CapturedEvent), st.inbox.Nodup →
      Ledger.handle_captured st ev = .ok st' → st'.inbox.Nodup) ∧
    (∀ (cfg : RiskConfig) (st : RiskState) (ev : RiskEvent) (v f : Int),
      st.inbox.Nodup →
      (Risk.handle_payment_requested cfg st ev v f).inbox.Nodup) ∧
    (∀ (st : ProvState) (ev : ProviderEvent) (rand : Nat → Outcome)
      (lat : Nat → Int), st.inbox.Nodup →
      (Provider.handle_authorize_request st ev rand lat).inbox.Nodup) := by
  refine ⟨?_, ?_, ?_, ?_, ?_, ?_, ?_, ?_⟩
  · intro st ev hseen
    refine ⟨?_, ?_, ?_, ?_, ?_⟩ <;>
      simp [Orch.handle_risk_approved, Orch.handle_risk_denied,
        Orch.handle_authorized, Orch.handle_failed, Orch.handle_settled, hseen]
  · intro st ev hseen
    simp [Ledger.handle_captured, hseen]
  · intro cfg st ev v f hseen
    simp [Risk.handle_payment_requested, hseen]
  · intro st ev rand lat hseen
    simp [Provider.handle_authorize_request, hseen]
  · intro st st' ev hnd hcase
    rcases hcase with h | h | h | h | h
    · exact Orch.inbox_delta_nodup (Orch.handle_risk_approved_inbox h) hnd
    · exact Orch.inbox_delta_nodup (Orch.handle_risk_denied_inbox h) hnd
    · exact Orch.inbox_delta_nodup (Orch.handle_authorized_inbox h) hnd
    · exact Orch.inbox_delta_nodup (Orch.handle_failed_inbox h) hnd
    · exact Orch.inbox_delta_nodup (Orch.handle_settled_inbox h) hnd
  · intro st st' ev hnd h
    rcases Ledger.handle_captured_inbox h with hh | ⟨hmem, hh⟩
    · rw [hh]; exact hnd
    · rw [hh]; simp [List.nodup_append, hnd, hmem]
  · intro cfg st ev v f hnd
    unfold Risk.handle_payment_requested
    by_cases hseen : ev.event_id ∈ st.inbox
    · simp [hseen, Risk.dup_bump, hnd]
    · simp only [hseen, if_neg, not_false_iff]
      split
      · split <;> simp [List.nodup_append, hnd, hseen]
      · simp [List.nodup_append, hnd, hseen]
  · intro st ev rand lat hnd
    unfold Provider.handle_authorize_request
    by_cases hseen : ev.event_id ∈ st.inbox
    · simp [hseen, Provider.dup_bump, hnd]
    · simp only [hseen, if_neg, not_false_iff]
      split
      · simp [Provider.enqueue_dlq, List.nodup_append, hnd, hseen]
      · rw [Provider.attempt_loop_inbox]
        simp [List.nodup_append, hnd, hseen]

namespace Orch

lemma find_by_key_append_none {ps : List Payment} (qs : List Payment)
    {key : String} (h : find_by_key ps key = none) :
    find_by_key (ps ++ qs) key = find_by_key qs key := by
  induction ps with
  | nil => rfl
  | cons a l ih =>
    by_cases ha : a.idempotency_key = key
    · exfalso
      unfold find_by_key at h
      rw [List.find?_cons_of_pos] at h
      · cases h
      · simpa using ha
    · unfold find_by_key at h ⊢
      rw [List.cons_append, List.find?_cons_of_neg _ (by simpa using ha)]
      rw [List.find?_cons_of_neg _ (by simpa using ha)] at h
      exact ih h

end Orch

/-- **C8.** Two `create_payment` calls with the same `idempotency_key` return
the same payment and the second leaves the store untouched: afterwards exactly
one payment row with that key, one initial CREATED timeline row and one
`payments.requested` outbox event exist for it, whatever the other request
fields are. -/
theorem C8_create_payment_idempotent
    (st0 st1 st2 : OrchState) (p1 p2 : Payment)
    (req1 req2 : Orch.PaymentReq) (fid1 fid2 tr1 tr2 : String)
    (hkey : req2.idempotency_key = req1.idempotency_key)
    (habsent : Orch.find_by_key st0.payments req1.idempotency_key = none)
    (htl0 : st0.timeline.filter (fun r => decide (r.payment_id = fid1)) = [])
    (hob0 : st0.outbox.filter (fun r => decide (r.aggregate_id = fid1)) = [])
    (h1 : Orch.create_payment st0 req1 fid1 tr1 = (st1, p1))
    (h2 : Orch.create_payment st1 req2 fid2 tr2 = (st2, p2)) :
    p2 = p1 ∧ st2 = st1 ∧ p1.payment_id = fid1 ∧
    st1.payments.filter
      (fun q => decide (q.idempotency_key = req1.idempotency_key)) = [p1] ∧
    st1.timeline.filter (fun r => decide (r.payment_id = fid1)) =
      [{ payment_id := fid1, from_state := none, to_state := .CREATED,
         reason := "payment_created", event_id := none }] ∧
    st1.outbox.filter (fun r => decide (r.aggregate_id = fid1)) =
      [{ aggregate_id := fid1, event_type := "payments.requested",
         topic := "payments.requested", trace_id := tr1,
         payload := .requested req1.customer_id req1.amount_cents
           (upper_str req1.currency) }] := by
  have hc1 : Orch.create_payment st0 req1 fid1 tr1 =
      ({ st0 with
          payments := st0.payments ++
            [{ payment_id := fid1, customer_id := req1.customer_id,
               amount_cents := req1.amount_cents,
               currency := upper_str req1.currency, status := .CREATED,
               state_version := 0, idempotency_key := req1.idempotency_key }],
          timeline := st0.timeline ++
            [{ payment_id := fid1, from_state := none, to_state := .CREATED,
               reason := "payment_created", event_id := none }],
          outbox := st0.outbox ++
            [{ aggregate_id := fid1, event_type := "payments.requested",
               topic := "payments.requested", trace_id := tr1,
               payload := .requested req1.customer_id req1.amount_cents
                 (upper_str req1.currency) }] },
       { payment_id := fid1, customer_id := req1.customer_id,
         amount_cents := req1.amount_cents,
         currency := upper_str req1.currency, status := .CREATED,
         state_version := 0, idempotency_key := req1.idempotency_key }) := by
    unfold Orch.create_payment
    rw [habsent]
  rw [hc1] at h1
  injection h1 with h1a h1b
  have hfind2 : Orch.find_by_key st1.payments req2.idempotency_key =
      some p1 := by
    rw [← h1a, ← h1b, hkey]
    rw [Orch.find_by_key_append_none _ habsent]
    simp [Orch.find_by_key]
  have hc2 : Orch.create_payment st1 req2 fid2 tr2 = (st1, p1) := by
    unfold Orch.create_payment
    rw [hfind2]
  rw [hc2] at h2
  injection h2 with h2a h2b
  have hpf : st0.payments.filter
      (fun q => decide (q.idempotency_key = req1.idempotency_key)) = [] := by
    rw [List.filter_eq_nil_iff]
    intro a ha
    have := List.find?_eq_none.mp habsent a ha
    simpa using this
  refine ⟨h2b.symm, h2a.symm, by rw [← h1b], ?_, ?_, ?_⟩
  · rw [← h1a, ← h1b]
    simp [List.filter_append, hpf]
  · rw [← h1a]
    simp [List.filter_append, htl0]
  · rw [← h1a]
    simp [List.filter_append, hob0]

/-- **C9 counterexample.** With the default `rate_limit_per_minute = 30`, a
fresh bucket admits the first request under the code's limiter (capacity 30),
while a bucket with capacity `30/60 = 1/2` — the capacity the claim states —
would reject it (tokens < 1): the claim's capacity reading is false for the
code. -/
theorem C9_capacity_counterexample :
    (Gateway.enforce_token_bucket 30 none 0).1 = true ∧
    (Gateway.claim_token_bucket 30 none 0).1 = false := by
  constructor
  · simp only [Gateway.enforce_token_bucket]
    norm_num
  · simp only [Gateway.claim_token_bucket]
    norm_num

/-- **C9 (amended).** The gateway limiter is a token bucket whose capacity is
`rate_limit_per_minute` tokens and whose refill rate is
`rate_limit_per_minute/60` tokens per second: tokens refill up to the
capacity, the request is rejected exactly when the available tokens are
below 1 (tokens stored back unchanged), and otherwise exactly one token is
consumed; the entry's clock is set to `now` either way. -/
theorem C9_token_bucket_amended (l : ℚ) (stored : Option BucketEntry)
    (now : ℚ) :
    Gateway.available_tokens l stored now ≤ l ∧
    ((Gateway.enforce_token_bucket l stored now).1 = false ↔
      Gateway.available_tokens l stored now < 1) ∧
    (Gateway.enforce_token_bucket l stored now).2.tokens =
      (if Gateway.available_tokens l stored now < 1 then
        Gateway.available_tokens l stored now
       else Gateway.available_tokens l stored now - 1) ∧
    (Gateway.enforce_token_bucket l stored now).2.updated_at = now := by
  unfold Gateway.enforce_token_bucket Gateway.available_tokens
  refine ⟨min_le_left _ _, ?_, ?_, ?_⟩ <;>
    rcases stored with _ | e <;>
    dsimp only <;>
    split_ifs with hh <;>
    simp_all

/-- **C10.** `mark_outbox_sent` and `requeue_outbox_event` leave every row
whose id differs or whose status is not PROCESSING completely unchanged — in
particular a SENT row is never reverted to PENDING and a PENDING row is never
set directly to SENT — and the rows they do rewrite are exactly the
`(id, PROCESSING)` matches. -/
theorem C10_outbox_status_frame (event_id : String) (now : ℚ) (r : OutboxRec)
    (h : r.id ≠ event_id ∨ r.status ≠ .PROCESSING) :
    Outbox.mark_row event_id now r = r ∧
    Outbox.requeue_row event_id r = r ∧
    (∀ rows : List OutboxRec, r ∈ rows →
      r ∈ Outbox.mark_outbox_sent rows event_id now ∧
      r ∈ Outbox.requeue_outbox_event rows event_id) := by
  have hcond : ¬ (r.id = event_id ∧ r.status = OutboxStatus.PROCESSING) := by
    rcases h with h | h
    · exact fun hc => h hc.1
    · exact fun hc => h hc.2
  have hm : Outbox.mark_row event_id now r = r := by
    unfold Outbox.mark_row
    rw [if_neg hcond]
  have hq : Outbox.requeue_row event_id r = r := by
    unfold Outbox.requeue_row
    rw [if_neg hcond]
  refine ⟨hm, hq, ?_⟩
  intro rows hr
  constructor
  · exact List.mem_map.mpr ⟨r, hr, hm⟩
  · exact List.mem_map.mpr ⟨r, hr, hq⟩

/-- Witness for C1: one CREATED→APPROVED step on the concrete store. -/
theorem C1_state_machine_timeline_witness :
    timeline_chain wPayment.status
      (wOrchStateAfter.timeline.drop wOrchState.timeline.length)
      wPaymentAfter.status ∧
    wPaymentAfter.state_version = wPayment.state_version + 1 := by
  have h := C1_state_machine_timeline wOrchState wPayment
    [{ to_state := .APPROVED, reason := "risk_approved", event_id := none }]
    wOrchStateAfter wPaymentAfter (by decide) (by decide) rfl
  exact ⟨h.2.2.1, h.2.2.2.1⟩

/-- **C4 counterexample.** The claim as frozen asserts that any fresh
`payments.failed` event whose payment exists and is not FAILED transitions it
to FAILED and appends a FAILED attempt row.  At a SETTLED payment the code
instead raises in `validate_transition` (SETTLED has no outgoing edges) and
the whole transaction rolls back: `handle_failed` returns the error, so no
transition and no attempt row are persisted. -/
theorem C4_settled_rolls_back_counterexample :
    Orch.handle_failed wOrchStateSettled wFailedEvent =
      .error "Invalid transition" := rfl

/-- Witness for C4: a PROVIDER_TIMEOUT failure on an APPROVED payment
commits. -/
theorem C4_handle_failed_witness :
    ∃ st', Orch.handle_failed wOrchStateApproved wFailedEvent = .ok st' := by
  obtain ⟨st', h, -⟩ := C4_handle_failed wOrchStateApproved wFailedEvent
    wPaymentApproved (by decide) (by decide) (by decide) (by decide)
  exact ⟨st', h⟩

/-- Witness for C6: the force-timeout hook forces a TIMEOUT outcome. -/
theorem C6_force_timeout_exhaustion_witness :
    Provider.determine_outcome "force-timeout-A" wRand 1 = .TIMEOUT :=
  (C6_force_timeout_exhaustion wProvState wProvEvent "force-timeout-A" "USD"
    500 wRand wLat (by decide) rfl (by decide) rfl (by decide) rfl
    (by decide)).1 1

/-- Witness for C7: the authorized handler lands the payment in CAPTURED at
version 2. -/
theorem C7_handle_authorized_witness :
    ∃ ps', Orch.find_payment ps' wAuthEvent.aggregate_id =
      some { wPaymentApproved with
              status := .CAPTURED,
              state_version := wPaymentApproved.state_version + 2 } := by
  obtain ⟨ps', -, hf⟩ := C7_handle_authorized wOrchStateApproved wAuthEvent
    wPaymentApproved (by decide) (by decide) (by decide) (by decide)
  exact ⟨ps', hf⟩

/-- Witness for C8: after two same-key creates exactly one payment row with
the key exists. -/
theorem C8_create_payment_idempotent_witness :
    wStAfterCreate.payments.filter
      (fun q => decide (q.idempotency_key = wReq1.idempotency_key)) =
      [wCreated] := by
  have h := C8_create_payment_idempotent wEmptyOrch wStAfterCreate
    wStAfterCreate wCreated wCreated wReq1 wReq2 "pX" "pY" "t1" "t2"
    (by decide) (by decide) (by decide) (by decide) (by decide) (by decide)
  exact h.2.2.2.1

/-- Witness for C10: a PENDING row is untouched by both helpers. -/
theorem C10_outbox_status_frame_witness :
    Outbox.mark_row "a" 0 wOutboxRec = wOutboxRec ∧
    Outbox.requeue_row "a" wOutboxRec = wOutboxRec := by
  have h := C10_outbox_status_frame "a" 0 wOutboxRec (Or.inr (by decide))
  exact ⟨h.1, h.2.1⟩

end SagaPay
